import Mathlib

/-!
Formal model of the TRANSFER-OPERATIONS mail distributor (`src/distributor.py`).

The Python source is shallowly embedded: each relevant Python function is
translated into an executable Lean definition of the same name (where Lean
allows it), and the claims about the program are proved or refuted against
these definitions.

Modelling conventions:
* Python strings are Lean `String`s; `str.lower()` is modelled ASCII-wise
  (all inputs of interest are ASCII).
* Python `x in s` on strings is substring containment; on lists it is
  membership.
* JSON dicts holding persistent state are modelled as association lists.
* SHA-256 content hashes are modelled by the hashed text itself (an
  injective abstraction of the hash; the program only compares hashes for
  equality).
* Logging is pure observation and is not modelled; external transport
  effects (moves, sends) are recorded as explicit action values.
-/

namespace Distributor

/-! ## Python string primitives -/

/-- Characters stripped by Python `str.strip()`. -/
def isPyWhitespace (c : Char) : Bool :=
  c = ' ' || c = '\t' || c = '\n' || c = '\x0d' || c = '\x0b' || c = '\x0c'

/-- Python `str.strip()`. -/
def pyStrip (s : String) : String :=
  ⟨(s.toList.dropWhile isPyWhitespace).reverse.dropWhile isPyWhitespace |>.reverse⟩

/-- Python `str.lower()` (ASCII). -/
def pyLower (s : String) : String :=
  ⟨s.toList.map Char.toLower⟩

/-- Is `pat` a prefix of `text` (as char lists)? -/
def charsPrefix : List Char → List Char → Bool
  | [], _ => true
  | _ :: _, [] => false
  | p :: ps, t :: ts => p = t && charsPrefix ps ts

/-- Python `pat in text` for strings: substring containment. -/
def charsContains (text pat : List Char) : Bool :=
  match text with
  | [] => charsPrefix pat []
  | _ :: ts => charsPrefix pat text || charsContains ts pat

/-- Python `pat in text` on `String`s. -/
def strContains (text pat : String) : Bool :=
  charsContains text.toList pat.toList

/-- Python `s.startswith(p)`. -/
def pyStartsWith (s p : String) : Bool :=
  charsPrefix p.toList s.toList

/-- Python `s.count(c)` for a single character. -/
def countChar (s : String) (c : Char) : Nat :=
  s.toList.count c

/-- Python `s.split(c)[-1]`: the substring after the last occurrence of `c`. -/
def afterLastChar (s : String) (c : Char) : String :=
  ⟨((s.toList.reverse.takeWhile (· ≠ c)).reverse)⟩

/-- Python `s.split(c, 1)[0]`: the substring before the first occurrence of `c`. -/
def beforeFirstChar (s : String) (c : Char) : String :=
  ⟨s.toList.takeWhile (· ≠ c)⟩

/-- Python `s[n:]` on char lists, as a `String` drop. -/
def pyDrop (s : String) (n : Nat) : String :=
  ⟨s.toList.drop n⟩

/-- Python `s[:n]`. -/
def pyTake (s : String) (n : Nat) : String :=
  ⟨s.toList.take n⟩

/-! ## Semantic dictionary (`RISK_ACTIONS`, `RISK_CONTEXT`, `URGENCY_WORDS`) -/

def RISK_ACTIONS : List String :=
  ["delete", "deletion", "remove", "unlink", "purge", "erase", "destroy",
   "cancel", "void", "nullify", "terminate",
   "merge", "merging", "merged", "split", "splitting",
   "combine", "duplicate", "dedupe", "dedup"]

def RISK_CONTEXT : List String :=
  ["patient", "scan", "accession", "study", "exam", "report",
   "imaging", "dicom", "mri", "ct", "ultrasound", "xray", "x-ray",
   "record", "data", "file", "prior", "comparison"]

def URGENCY_WORDS : List String :=
  ["stat", "asap", "urgent", "emergency", "critical", "immediate",
   "now", "rush", "priority", "life-threatening", "code"]

/-! ## Risk detection (`detect_risk`) -/

/-- `detect_risk(subject, body, high_importance)` from `src/distributor.py`.
Returns the risk level and the optional reason string. -/
def detect_risk (subject : String) (body : String) (high_importance : Bool) :
    String × Option String :=
  let text := pyLower (subject ++ " " ++ body)
  let found_actions := RISK_ACTIONS.filter (fun a => strContains text a)
  let found_context := RISK_CONTEXT.filter (fun c => strContains text c)
  let found_urgency := URGENCY_WORDS.filter (fun u => strContains text u)
  if high_importance then
    ("critical", some "Outlook High Importance Flag")
  else if !found_actions.isEmpty && !found_context.isEmpty then
    ("critical", some ("Action+Context: " ++ found_actions.headD "" ++ "+" ++
      found_context.headD ""))
  else if !found_urgency.isEmpty && !found_actions.isEmpty then
    ("critical", some ("Urgency+Action: " ++ found_urgency.headD "" ++ "+" ++
      found_actions.headD ""))
  else if !found_urgency.isEmpty then
    ("urgent", some ("Urgency: " ++ found_urgency.headD ""))
  else if !found_actions.isEmpty then
    ("urgent", some ("Action detected: " ++ found_actions.headD ""))
  else
    ("normal", none)

/-! ## Sender normalization (`normalize_email`, `normalize_sender_for_policy`) -/

/-- `normalize_email(raw)`: lowercase/strip, require no inner whitespace,
exactly one `@`, nonempty local part and domain, and a dot in the domain. -/
def normalize_email (raw : String) : Option String :=
  let s := pyLower (pyStrip raw)
  if s = "" then none
  else if s.toList.any isPyWhitespace then none
  else if countChar s '@' ≠ 1 then none
  else
    let local_part := beforeFirstChar s '@'
    let domain := afterLastChar s '@'
    if local_part = "" || domain = "" then none
    else if !strContains domain "." then none
    else some s

/-- First match of the regex `<([^>]+)>`: the content of the first
angle-bracket pair with nonempty content. -/
def angleGroup : List Char → Option (List Char)
  | [] => none
  | '<' :: rest =>
    let run := rest.takeWhile (· ≠ '>')
    match rest.dropWhile (· ≠ '>'), run with
    | '>' :: _, _ :: _ => some run
    | _, _ => angleGroup rest
  | _ :: rest => angleGroup rest

/-- `normalize_sender_for_policy(raw)` from `src/distributor.py`.
(The source's final regex fallback fires only when `s` contains no `@`,
but the fallback pattern itself requires an `@`, so it never matches;
that dead branch leaves `s` unchanged here.) -/
def normalize_sender_for_policy (raw : String) : Option String :=
  let s := pyLower (pyStrip raw)
  if s = "" then none
  else
    let s := if pyStartsWith s "smtp:" then pyStrip (pyDrop s 5) else s
    let s := match angleGroup s.toList with
             | some g => pyStrip ⟨g⟩
             | none => s
    normalize_email s

/-- `extract_sender_domain(sender_email)`: domain after the last `@`,
with `Name <user@domain>` handled first. -/
def extract_sender_domain (sender_email : String) : Option String :=
  if sender_email = "" then none
  else
    let email_str := pyStrip sender_email
    let email_str := match angleGroup email_str.toList with
                     | some g => (⟨g⟩ : String)
                     | none => email_str
    if strContains email_str "@" then
      let domain := pyLower (pyStrip (afterLastChar email_str '@'))
      if domain = "" then none else some domain
    else none

/-! ## Policy and classification (`classify_sender` and friends) -/

/-- The domain-policy dictionary fields used by classification, with the
legacy aliases (`external_image_request_domains` = `transfer_domains`,
`always_hold_domains` = `held_domains`) kept as separate fields exactly as
the runtime dict holds them. -/
structure Policy where
  quarantine_senders : List String := []
  quarantine_domains : List String := []
  held_senders : List String := []
  held_domains : List String := []
  system_notification_senders : List String := []
  system_notification_domains : List String := []
  transfer_senders : List String := []
  transfer_domains : List String := []
  internal_domains : List String := []
  external_image_request_domains : List String := []
  always_hold_domains : List String := []
  sami_support_staff : List String := []
  deriving Repr, DecidableEq

/-- `_build_sender_override_set(policy, key)`: normalized sender overrides. -/
def build_sender_override_set (values : List String) : List String :=
  values.filterMap normalize_sender_for_policy

/-- Lowercase/strip every domain entry (the set comprehensions in
`classify_sender`). -/
def lowerStripAll (values : List String) : List String :=
  values.map (fun d => pyStrip (pyLower d))

/-- `classify_sender(sender_email, sender_domain, policy)`:
exact sender match first within each bucket, buckets in fixed priority
order quarantine > hold > system_notification > external_image_request.
Returns `(bucket, match_level)` or `(none, none)`. -/
def classify_sender (sender_email : String) (sender_domain : Option String)
    (policy : Policy) : Option String × Option String :=
  let email_lower := (normalize_sender_for_policy sender_email).getD ""
  let domain_lower := match sender_domain with
                      | some d => pyStrip (pyLower d)
                      | none => ""
  let q_senders := build_sender_override_set policy.quarantine_senders
  let q_domains := lowerStripAll policy.quarantine_domains
  let h_senders := build_sender_override_set policy.held_senders
  let h_domains := lowerStripAll policy.held_domains
  let sn_senders := build_sender_override_set policy.system_notification_senders
  let sn_domains := lowerStripAll policy.system_notification_domains
  let eir_senders := build_sender_override_set policy.transfer_senders
  let eir_domains := lowerStripAll policy.transfer_domains
  if email_lower ≠ "" && q_senders.contains email_lower then
    (some "quarantine", some "sender")
  else if domain_lower ≠ "" && q_domains.contains domain_lower then
    (some "quarantine", some "domain")
  else if email_lower ≠ "" && h_senders.contains email_lower then
    (some "hold", some "sender")
  else if domain_lower ≠ "" && h_domains.contains domain_lower then
    (some "hold", some "domain")
  else if email_lower ≠ "" && sn_senders.contains email_lower then
    (some "system_notification", some "sender")
  else if domain_lower ≠ "" && sn_domains.contains domain_lower then
    (some "system_notification", some "domain")
  else if email_lower ≠ "" && eir_senders.contains email_lower then
    (some "external_image_request", some "sender")
  else if domain_lower ≠ "" && eir_domains.contains domain_lower then
    (some "external_image_request", some "domain")
  else
    (none, none)

/-- `get_sender_override_bucket(sender_email, policy)`. -/
def get_sender_override_bucket (sender_email : String) (policy : Policy) :
    Option String :=
  match normalize_sender_for_policy sender_email with
  | none => none
  | some email_lower =>
    if (build_sender_override_set policy.quarantine_senders).contains email_lower then
      some "quarantine"
    else if (build_sender_override_set policy.held_senders).contains email_lower then
      some "hold"
    else if (build_sender_override_set policy.system_notification_senders).contains email_lower then
      some "system_notification"
    else if (build_sender_override_set policy.transfer_senders).contains email_lower then
      some "external_image_request"
    else none

/-- `classify_sender_domain(domain, policy)` (legacy fallback used when
`classify_sender` returns no explicit match). -/
def classify_sender_domain (domain : String) (policy : Policy) : String :=
  if domain = "" then "unknown"
  else
    let domain_lower := pyStrip (pyLower domain)
    if (lowerStripAll policy.quarantine_domains).contains domain_lower then
      "quarantine"
    else if (lowerStripAll policy.always_hold_domains).contains domain_lower then
      "hold"
    else if (lowerStripAll policy.system_notification_domains).contains domain_lower then
      "system_notification"
    else if (lowerStripAll policy.external_image_request_domains).contains domain_lower then
      "external_image_request"
    else if (lowerStripAll policy.internal_domains).contains domain_lower then
      "internal"
    else "unknown"

/-- The four explicit policy buckets. -/
def explicitBuckets : List String :=
  ["quarantine", "hold", "system_notification", "external_image_request"]

/-- The classification stage of `process_inbox` (lines 2797-2813):
`classify_sender`, the internal/unknown fallback, and the sender-override
safety net that forces a sender-level match when one exists. -/
def pipeline_classify (sender_email : String) (policy : Policy) :
    String × Option String :=
  let sender_domain := extract_sender_domain sender_email
  let (b0, l0) := classify_sender sender_email sender_domain policy
  let (domain_bucket, match_level) :=
    match b0 with
    | some b => (b, l0)
    | none =>
      let db := match sender_domain with
                | some d => classify_sender_domain d policy
                | none => "unknown"
      (db, if explicitBuckets.contains db then some "domain" else none)
  if match_level ≠ some "sender" then
    match get_sender_override_bucket sender_email policy with
    | some sb => (sb, some "sender")
    | none => (domain_bucket, match_level)
  else
    (domain_bucket, match_level)

/-! ## Spec-side statement of the risk rules (for the refinement claim C5) -/

/-- Written from the spec's words (§4.2): rules evaluated in order, first
match wins: (1) importance flag set → critical; (2) an action word and a
context word both present → critical; (3) an urgency word and an action
word both present → critical; (4) urgency word alone → urgent; (5) action
word alone → urgent; (6) otherwise → normal. -/
def riskLevelSpec (subject : String) (body : String) (high_importance : Bool) :
    String :=
  let text := pyLower (subject ++ " " ++ body)
  let hasAction := RISK_ACTIONS.any (fun a => strContains text a)
  let hasContext := RISK_CONTEXT.any (fun c => strContains text c)
  let hasUrgency := URGENCY_WORDS.any (fun u => strContains text u)
  if high_importance then "critical"
  else if hasAction && hasContext then "critical"
  else if hasUrgency && hasAction then "critical"
  else if hasUrgency then "urgent"
  else if hasAction then "urgent"
  else "normal"

lemma not_isEmpty_filter {α : Type} (p : α → Bool) (l : List α) :
    (!(l.filter p).isEmpty) = l.any p := by
  induction l with
  | nil => rfl
  | cons a l ih =>
    cases h : p a <;> simp [List.filter_cons, h, List.any_cons, ← ih]

/-! ## Helper lemmas on normalization and classification -/

lemma normalize_email_ne_empty {r e : String} (h : normalize_email r = some e) :
    e ≠ "" := by
  unfold normalize_email at h
  simp only [] at h
  split_ifs at h <;> simp_all

lemma normalize_sender_ne_empty {r e : String}
    (h : normalize_sender_for_policy r = some e) : e ≠ "" := by
  unfold normalize_sender_for_policy at h
  simp only [] at h
  split_ifs at h
  · exact normalize_email_ne_empty h
  · exact normalize_email_ne_empty h

/-- A sender-level result of `classify_sender` always comes from membership
of the normalized sender in one of the four sender-override sets. -/
lemma classify_sender_sender_level (s : String) (d : Option String) (p : Policy)
    (cc : Option String)
    (h : classify_sender s d p = (cc, some "sender")) :
    ∃ e, normalize_sender_for_policy s = some e ∧
      ((cc = some "quarantine" ∧
          (build_sender_override_set p.quarantine_senders).contains e = true) ∨
       (cc = some "hold" ∧
          (build_sender_override_set p.held_senders).contains e = true) ∨
       (cc = some "system_notification" ∧
          (build_sender_override_set p.system_notification_senders).contains e = true) ∨
       (cc = some "external_image_request" ∧
          (build_sender_override_set p.transfer_senders).contains e = true)) := by
  unfold classify_sender at h
  simp only [] at h
  rcases hn : normalize_sender_for_policy s with _ | e
  all_goals simp only [hn, Option.getD_none, Option.getD_some] at h
  all_goals split_ifs at h with h1 h2 h3 h4 h5 h6 h7 h8 <;> simp_all

/-- If the sender has an override bucket, `pipeline_classify` returns it as
a sender-level match whenever `classify_sender` could only have produced the
same bucket at sender level. -/
lemma pipeline_classify_of_override (s : String) (p : Policy) (bb : String)
    (hov : get_sender_override_bucket s p = some bb)
    (hcl : ∀ cc ll, classify_sender s (extract_sender_domain s) p = (cc, ll) →
      ll = some "sender" → cc = some bb) :
    pipeline_classify s p = (bb, some "sender") := by
  unfold pipeline_classify
  rcases h : classify_sender s (extract_sender_domain s) p with ⟨cc, ll⟩
  simp only [h]
  rcases cc with _ | x
  · split <;> simp_all [hov]
  · by_cases hs : ll = some "sender"
    · have hx := hcl (some x) ll h hs
      simp [hs, Option.some_inj.mp hx]
    · simp [hs, hov]

/-- The four explicit policy buckets, as an index type for stating the
priority claim. -/
inductive PolicyBucket
  | quarantine | hold | system_notification | external_image_request
  deriving DecidableEq, Repr

def bucketName : PolicyBucket → String
  | .quarantine => "quarantine"
  | .hold => "hold"
  | .system_notification => "system_notification"
  | .external_image_request => "external_image_request"

/-- The sender-override list of a bucket (the `*_senders` policy keys). -/
def bucketSenderList (p : Policy) : PolicyBucket → List String
  | .quarantine => p.quarantine_senders
  | .hold => p.held_senders
  | .system_notification => p.system_notification_senders
  | .external_image_request => p.transfer_senders

/-- The domain list of a bucket (the `*_domains` policy keys). -/
def bucketDomainList (p : Policy) : PolicyBucket → List String
  | .quarantine => p.quarantine_domains
  | .hold => p.held_domains
  | .system_notification => p.system_notification_domains
  | .external_image_request => p.transfer_domains

lemma get_override_of_unique (s : String) (p : Policy) (e : String)
    (B : PolicyBucket)
    (hn : normalize_sender_for_policy s = some e)
    (hmem : (build_sender_override_set (bucketSenderList p B)).contains e = true)
    (hexcl : ∀ C : PolicyBucket, C ≠ B →
      (build_sender_override_set (bucketSenderList p C)).contains e = false) :
    get_sender_override_bucket s p = some (bucketName B) := by
  unfold get_sender_override_bucket
  rw [hn]
  cases B <;>
    (try have h1 := hexcl PolicyBucket.quarantine (by decide)) <;>
    (try have h2 := hexcl PolicyBucket.hold (by decide)) <;>
    (try have h3 := hexcl PolicyBucket.system_notification (by decide)) <;>
    (try have h4 := hexcl PolicyBucket.external_image_request (by decide)) <;>
    simp_all [bucketSenderList, bucketName]

/-! ## Claim C2: sender-level override outranks domain-level match -/

/-- C2: a sender whose normalized address is on exactly the sender-override
list of bucket `B`, while its domain is on the domain list of a different
bucket `Bd`, is classified by the pipeline (lines 2797-2813 of
`process_inbox`) to bucket `B` with a sender-level match. -/
theorem pipeline_sender_override_outranks_domain
    (sender d : String) (policy : Policy) (e : String) (B Bd : PolicyBucket)
    (hn : normalize_sender_for_policy sender = some e)
    (hmem : (build_sender_override_set (bucketSenderList policy B)).contains e = true)
    (hexcl : ∀ C : PolicyBucket, C ≠ B →
      (build_sender_override_set (bucketSenderList policy C)).contains e = false)
    (hBd : Bd ≠ B)
    (hd : extract_sender_domain sender = some d)
    (hdom : (lowerStripAll (bucketDomainList policy Bd)).contains
      (pyStrip (pyLower d)) = true) :
    pipeline_classify sender policy = (bucketName B, some "sender") := by
  apply pipeline_classify_of_override
  · exact get_override_of_unique sender policy e B hn hmem hexcl
  · intro cc ll hcl hll
    subst hll
    obtain ⟨e2, hn2, hdisj⟩ := classify_sender_sender_level _ _ _ _ hcl
    rw [hn] at hn2
    obtain rfl : e = e2 := Option.some_inj.mp hn2
    rcases hdisj with ⟨hcc, hco⟩ | ⟨hcc, hco⟩ | ⟨hcc, hco⟩ | ⟨hcc, hco⟩ <;>
      cases B <;>
      (try have h1 := hexcl PolicyBucket.quarantine (by decide)) <;>
      (try have h2 := hexcl PolicyBucket.hold (by decide)) <;>
      (try have h3 := hexcl PolicyBucket.system_notification (by decide)) <;>
      (try have h4 := hexcl PolicyBucket.external_image_request (by decide)) <;>
      simp_all [bucketSenderList, bucketName]

/-- A concrete policy for the C2 witness: the sender is on the hold bucket's
sender-override list while its domain is on the quarantine bucket's domain
list. -/
def witnessPolicyC2 : Policy :=
  { held_senders := ["alice@evil.com"], quarantine_domains := ["evil.com"] }

/-- Witness for C2 at a concrete input. -/
theorem pipeline_sender_override_outranks_domain_witness :
    pipeline_classify "alice@evil.com" witnessPolicyC2 = ("hold", some "sender") :=
  pipeline_sender_override_outranks_domain "alice@evil.com" "evil.com"
    witnessPolicyC2 "alice@evil.com" PolicyBucket.hold PolicyBucket.quarantine
    (by decide) (by decide)
    (fun C hC => by revert hC; cases C <;> decide)
    (by decide) (by decide) (by decide)

/-! ## Rotation scheduler (`get_next_staff`, `get_roster_state`) -/

/-- The persisted rotation state (`roster_state.json`):
`current_index` and `total_processed`. -/
structure RosterState where
  current_index : Nat
  total_processed : Nat
  deriving Repr, DecidableEq

/-- `get_next_staff()` from `src/distributor.py`: pick
`staff[current_index % len(staff)]`, then persist `current_index + 1` and
`total_processed + 1` before returning.  The returned state is the state
persisted by `save_roster_state`. -/
def get_next_staff (staff : List String) (state : RosterState) :
    Option String × RosterState :=
  if staff.isEmpty then (none, state)
  else
    (staff.get? (state.current_index % staff.length),
     { current_index := state.current_index + 1,
       total_processed := state.total_processed + 1 })

/-- `n` consecutive `get_next_staff` calls, collecting the assignments. -/
def rotationCalls (staff : List String) : Nat → RosterState →
    List (Option String) × RosterState
  | 0, st => ([], st)
  | n + 1, st =>
    let (p, st1) := get_next_staff staff st
    let (ps, st2) := rotationCalls staff n st1
    (p :: ps, st2)

/-- The active roster computed by `get_staff_list` from `staff.json`:
members not on the `off_rotation` or `leave` lists, insertion order kept. -/
def activeRoster (all_staff off leave : List String) : List String :=
  all_staff.filter (fun e => !off.contains e && !leave.contains e)

lemma rotationCalls_spec (staff : List String) (h : staff ≠ []) :
    ∀ (n : Nat) (st : RosterState),
      (rotationCalls staff n st).1 =
        (List.range n).map
          (fun k => staff.get? ((st.current_index + k) % staff.length)) ∧
      (rotationCalls staff n st).2 =
        ⟨st.current_index + n, st.total_processed + n⟩ := by
  intro n
  induction n with
  | zero => intro st; exact ⟨rfl, rfl⟩
  | succ n ih =>
    intro st
    have hne : staff.isEmpty = false := by
      simp [List.isEmpty_iff, h]
    obtain ⟨ih1, ih2⟩ := ih ⟨st.current_index + 1, st.total_processed + 1⟩
    constructor
    · simp only [rotationCalls, get_next_staff, hne, Bool.false_eq_true, if_false,
        ih1, List.range_succ_eq_map, List.map_cons, List.map_map]
      congr 1
      apply List.map_congr_left
      intro k _
      simp only [Function.comp]
      have hk2 : st.current_index + 1 + k = st.current_index + Nat.succ k := by
        omega
      rw [hk2]
    · simp only [rotationCalls, get_next_staff, hne, Bool.false_eq_true, if_false, ih2]
      simp only [RosterState.mk.injEq]
      omega

lemma rotation_outputs_eq_rotate (staff : List String) (h : staff ≠ [])
    (i0 : Nat) :
    (List.range staff.length).map
        (fun k => staff.get? ((i0 + k) % staff.length)) =
      (staff.rotate (i0 % staff.length)).map some := by
  have hN : 0 < staff.length := List.length_pos.mpr h
  apply List.ext_getElem?
  intro k
  by_cases hk : k < staff.length
  · rw [List.getElem?_map, List.getElem?_map, List.getElem?_range hk,
      List.getElem?_rotate (by simpa using hk)]
    have hidx : (k + i0 % staff.length) % staff.length = (i0 + k) % staff.length := by
      rw [Nat.add_comm k (i0 % staff.length), Nat.mod_add_mod]
    rw [hidx]
    have hlt : (i0 + k) % staff.length < staff.length := Nat.mod_lt _ hN
    rw [List.getElem?_eq_getElem hlt]
    simp [List.get?_eq_getElem?, List.getElem?_eq_getElem hlt]
  · rw [List.getElem?_map, List.getElem?_map]
    rw [List.getElem?_eq_none (by simpa using Nat.le_of_not_lt hk),
      List.getElem?_eq_none (by simp [Nat.le_of_not_lt hk])]
    rfl

/-! ## Claim C3: rotation fairness -/

/-- C3: for an active roster of size N (off_rotation/leave filtering leaves
every member eligible) and any persisted starting state, N consecutive
`get_next_staff` calls return exactly the roster rotated to start at
`roster[current_index % N]` — every member exactly once, in roster order —
and each call persists `current_index + 1` and `total_processed + 1`
before returning. -/
theorem rotation_fairness (staff : List String) (st : RosterState)
    (h : staff ≠ []) :
    activeRoster staff [] [] = staff ∧
    (rotationCalls staff staff.length st).1 =
      (staff.rotate (st.current_index % staff.length)).map some ∧
    (staff.rotate (st.current_index % staff.length)).Perm staff ∧
    (rotationCalls staff staff.length st).2 =
      ⟨st.current_index + staff.length, st.total_processed + staff.length⟩ ∧
    (∀ (s2 : RosterState), staff.isEmpty = false →
      (get_next_staff staff s2).1 = staff.get? (s2.current_index % staff.length) ∧
      (get_next_staff staff s2).2 =
        ⟨s2.current_index + 1, s2.total_processed + 1⟩) := by
  obtain ⟨h1, h2⟩ := rotationCalls_spec staff h staff.length st
  refine ⟨by simp [activeRoster], ?_, List.rotate_perm _ _, h2, ?_⟩
  · rw [h1, rotation_outputs_eq_rotate staff h]
  · intro s2 hne
    simp [get_next_staff, hne]

/-- Witness for C3: a three-person roster starting at persisted index 4. -/
theorem rotation_fairness_witness :
    activeRoster ["a@x.com", "b@x.com", "c@x.com"] [] [] =
        ["a@x.com", "b@x.com", "c@x.com"] ∧
    (rotationCalls ["a@x.com", "b@x.com", "c@x.com"] 3 ⟨4, 10⟩).1 =
      ((["a@x.com", "b@x.com", "c@x.com"].rotate (4 % 3)).map some) ∧
    ((["a@x.com", "b@x.com", "c@x.com"].rotate (4 % 3)).Perm
      ["a@x.com", "b@x.com", "c@x.com"]) ∧
    (rotationCalls ["a@x.com", "b@x.com", "c@x.com"] 3 ⟨4, 10⟩).2 = ⟨7, 13⟩ ∧
    (∀ (s2 : RosterState),
      (["a@x.com", "b@x.com", "c@x.com"] : List String).isEmpty = false →
      (get_next_staff ["a@x.com", "b@x.com", "c@x.com"] s2).1 =
        (["a@x.com", "b@x.com", "c@x.com"] : List String).get?
          (s2.current_index % 3) ∧
      (get_next_staff ["a@x.com", "b@x.com", "c@x.com"] s2).2 =
        ⟨s2.current_index + 1, s2.total_processed + 1⟩) :=
  rotation_fairness ["a@x.com", "b@x.com", "c@x.com"] ⟨4, 10⟩ (by decide)

/-! ## Hot-reload configuration store (`_reload_hot_json`) -/

/-- The cheap change fingerprint from `_file_fingerprint` (mtime+size),
abstracted to a number; `none` models a failed `os.stat`. -/
abbrev Fingerprint := Nat

/-- A parsed configuration value (the dict returned by the parse function),
abstracted to its canonical serialization. -/
abbrev ConfigValue := String

/-- SHA-256 of a text, modelled by the text itself (an injective
abstraction; the program only compares hashes for equality). -/
def contentSha (s : String) : String := s

/-- `json.dumps(parsed, sort_keys=True, ...)`: the canonical serialization
of a parsed value (the identity under the `ConfigValue` abstraction). -/
def stableDump (v : ConfigValue) : String := v

/-- One entry of `_hot_config_state`: `seen_fp`, `seen_sha`, `lkg`,
`lkg_sha`. -/
structure HotState where
  seen_fp : Option Fingerprint
  seen_sha : Option String
  lkg : Option ConfigValue
  lkg_sha : Option String
  deriving Repr, DecidableEq

/-- What one attempt to read + decode + parse + validate the file yields;
this is the input `_reload_hot_json` reacts to. -/
inductive FileRead
  | absent
  | readFail (fp : Fingerprint)
  | decodeFail (fp : Fingerprint) (raw : String)
  | parseFail (fp : Fingerprint) (raw : String)
  | validateFail (fp : Fingerprint) (raw : String) (err : String)
  | ok (fp : Fingerprint) (raw : String) (value : ConfigValue)
  deriving Repr, DecidableEq

def FileRead.fingerprint : FileRead → Option Fingerprint
  | .absent => none
  | .readFail fp => some fp
  | .decodeFail fp _ => some fp
  | .parseFail fp _ => some fp
  | .validateFail fp _ _ => some fp
  | .ok fp _ _ => some fp

inductive ConfigEvent
  | config_invalid (error : String)
  | config_changed
  deriving Repr, DecidableEq

/-- `_reload_hot_json(name, path, parse_fn)` from `src/distributor.py`:
returns the value to use, the emitted event (if any) and the updated cache
state.  On any failure the fingerprint (and, except for a raw read failure,
the raw-content hash) is recorded but `lkg` is untouched; on success the
value is promoted to `lkg` with a `CONFIG_CHANGED` event only when its
content hash differs from `lkg_sha`. -/
def reload_hot_json (state : HotState) (read : FileRead) :
    Option ConfigValue × Option ConfigEvent × HotState :=
  match read with
  | .absent => (state.lkg, none, state)
  | .readFail fp =>
    if state.seen_fp = some fp then (state.lkg, none, state)
    else
      (state.lkg, some (.config_invalid "read_failed"),
       { state with seen_fp := some fp })
  | .decodeFail fp raw =>
    if state.seen_fp = some fp then (state.lkg, none, state)
    else
      (state.lkg, some (.config_invalid "decode_failed"),
       { state with seen_fp := some fp, seen_sha := some (contentSha raw) })
  | .parseFail fp raw =>
    if state.seen_fp = some fp then (state.lkg, none, state)
    else
      (state.lkg, some (.config_invalid "invalid_json"),
       { state with seen_fp := some fp, seen_sha := some (contentSha raw) })
  | .validateFail fp raw err =>
    if state.seen_fp = some fp then (state.lkg, none, state)
    else
      (state.lkg, some (.config_invalid err),
       { state with seen_fp := some fp, seen_sha := some (contentSha raw) })
  | .ok fp _raw value =>
    if state.seen_fp = some fp then (state.lkg, none, state)
    else
      let sha := contentSha (stableDump value)
      let state1 := { state with seen_fp := some fp, seen_sha := some sha }
      if state1.lkg_sha = some sha then (state1.lkg, none, state1)
      else
        (some value, some .config_changed,
         { state1 with lkg := some value, lkg_sha := some sha })

/-- Read, decode, parse or schema-validation failure. -/
def FileRead.isFailure : FileRead → Bool
  | .readFail _ | .decodeFail _ _ | .parseFail _ _ | .validateFail _ _ _ => true
  | _ => false

lemma reload_same_fp_no_event (s : HotState) (r : FileRead) (fp : Fingerprint)
    (hfp : r.fingerprint = some fp) (hseen : s.seen_fp = some fp) :
    reload_hot_json s r = (s.lkg, none, s) := by
  cases r <;> simp_all [reload_hot_json, FileRead.fingerprint]

lemma reload_lkg_change (s : HotState) (r : FileRead)
    (h : (reload_hot_json s r).2.2.lkg ≠ s.lkg) :
    ∃ fp raw v, r = .ok fp raw v ∧
      (reload_hot_json s r).2.2.lkg = some v ∧
      s.lkg_sha ≠ some (contentSha (stableDump v)) := by
  cases r <;> simp_all [reload_hot_json] <;> split_ifs at h <;> simp_all
  all_goals exact ⟨_, _, _, ⟨rfl, rfl, rfl⟩, rfl, by assumption⟩

/-! ## Claim C4: last-known-good fallback -/

/-- C4: when the fingerprint has changed but the read fails (unreadable,
undecodable, unparsable or schema-invalid), `_reload_hot_json` returns the
cached last-known-good unchanged, emits exactly one CONFIG_INVALID event
for that fingerprint (any subsequent read of the same fingerprint emits no
event and still returns the cached value), and — for every state and read
whatsoever — `lkg` changes only to a successfully parsed+validated value
whose content hash differs from the cached good hash. -/
theorem config_invalid_keeps_lkg (s : HotState) (r : FileRead) (fp : Fingerprint)
    (hfp : r.fingerprint = some fp) (hchanged : s.seen_fp ≠ some fp)
    (hfail : r.isFailure = true) :
    (∃ err, (reload_hot_json s r).2.1 = some (.config_invalid err)) ∧
    (reload_hot_json s r).1 = s.lkg ∧
    (reload_hot_json s r).2.2.lkg = s.lkg ∧
    (reload_hot_json s r).2.2.lkg_sha = s.lkg_sha ∧
    (reload_hot_json s r).2.2.seen_fp = some fp ∧
    (∀ r2 : FileRead, r2.fingerprint = some fp →
      (reload_hot_json (reload_hot_json s r).2.2 r2).2.1 = none ∧
      (reload_hot_json (reload_hot_json s r).2.2 r2).1 = s.lkg) ∧
    (∀ (s3 : HotState) (r3 : FileRead),
      (reload_hot_json s3 r3).2.2.lkg ≠ s3.lkg →
      ∃ fp3 raw3 v3, r3 = .ok fp3 raw3 v3 ∧
        (reload_hot_json s3 r3).2.2.lkg = some v3 ∧
        s3.lkg_sha ≠ some (contentSha (stableDump v3))) := by
  have hbase :
      (∃ err, (reload_hot_json s r).2.1 = some (.config_invalid err)) ∧
      (reload_hot_json s r).1 = s.lkg ∧
      (reload_hot_json s r).2.2.lkg = s.lkg ∧
      (reload_hot_json s r).2.2.lkg_sha = s.lkg_sha ∧
      (reload_hot_json s r).2.2.seen_fp = some fp := by
    cases r <;> simp_all [reload_hot_json, FileRead.fingerprint, FileRead.isFailure]
  obtain ⟨hb1, hb2, hb3, hb4, hb5⟩ := hbase
  refine ⟨hb1, hb2, hb3, hb4, hb5, ?_, fun s3 r3 h3 => reload_lkg_change s3 r3 h3⟩
  intro r2 h2
  rw [reload_same_fp_no_event _ r2 fp h2 hb5]
  exact ⟨rfl, hb3⟩

/-- The cached state for the C4 witness: fingerprint 1 was seen good, with
value "goodcfg" as last-known-good. -/
def witnessHotState : HotState :=
  ⟨some 1, some "goodcfg", some "goodcfg", some "goodcfg"⟩

/-- The offending read for the C4 witness: a schema-invalid file at a new
fingerprint. -/
def witnessBadRead : FileRead :=
  .validateFail 2 "badraw" "staff.json missing key: staff"

/-- Witness for C4 at a concrete state and read. -/
theorem config_invalid_keeps_lkg_witness :
    (∃ err, (reload_hot_json witnessHotState witnessBadRead).2.1 =
      some (.config_invalid err)) ∧
    (reload_hot_json witnessHotState witnessBadRead).1 = witnessHotState.lkg ∧
    (reload_hot_json witnessHotState witnessBadRead).2.2.lkg =
      witnessHotState.lkg ∧
    (reload_hot_json witnessHotState witnessBadRead).2.2.lkg_sha =
      witnessHotState.lkg_sha ∧
    (reload_hot_json witnessHotState witnessBadRead).2.2.seen_fp = some 2 ∧
    (∀ r2 : FileRead, r2.fingerprint = some 2 →
      (reload_hot_json
        (reload_hot_json witnessHotState witnessBadRead).2.2 r2).2.1 = none ∧
      (reload_hot_json
        (reload_hot_json witnessHotState witnessBadRead).2.2 r2).1 =
        witnessHotState.lkg) ∧
    (∀ (s3 : HotState) (r3 : FileRead),
      (reload_hot_json s3 r3).2.2.lkg ≠ s3.lkg →
      ∃ fp3 raw3 v3, r3 = .ok fp3 raw3 v3 ∧
        (reload_hot_json s3 r3).2.2.lkg = some v3 ∧
        s3.lkg_sha ≠ some (contentSha (stableDump v3))) :=
  config_invalid_keeps_lkg witnessHotState witnessBadRead 2
    (by decide) (by decide) (by decide)

/-! ## Claims C5 and C10: risk detection -/

/-- C5: `detect_risk` evaluates its rules in fixed order with first match
winning — importance flag → critical; action+context → critical;
urgency+action → critical; urgency alone → urgent; action alone → urgent;
otherwise normal — and on the concrete subjects:
"STAT delete patient scan" (flag unset, empty body) → critical,
"urgent question" → urgent, "please review" → normal. -/
theorem detect_risk_rule_order_and_examples :
    (∀ (subject body : String) (hi : Bool),
      (detect_risk subject body hi).1 = riskLevelSpec subject body hi) ∧
    (detect_risk "STAT delete patient scan" "" false).1 = "critical" ∧
    (detect_risk "urgent question" "" false).1 = "urgent" ∧
    (detect_risk "please review" "" false).1 = "normal" := by
  refine ⟨fun subject body hi => ?_, by decide, by decide, by decide⟩
  simp only [detect_risk, riskLevelSpec, not_isEmpty_filter]
  split_ifs <;> rfl

/-- C10: the risk keyword lists are matched as substrings of the lowercased
subject+body text, not as whole words: the subject "unknown" (empty body,
importance flag unset) equals no keyword, yet `detect_risk` returns
urgent because the urgency word "now" occurs inside "unknown". -/
theorem detect_risk_substring_not_whole_word :
    (∀ w ∈ RISK_ACTIONS ++ RISK_CONTEXT ++ URGENCY_WORDS, w ≠ "unknown") ∧
    detect_risk "unknown" "" false = ("urgent", some "Urgency: now") := by
  exact ⟨by decide, by decide⟩

/-! ## Messages and per-message helper predicates -/

/-- Python `s.endswith(p)`. -/
def pyEndsWith (s p : String) : Bool :=
  charsPrefix p.toList.reverse s.toList.reverse

/-- An Outlook message as the dispatcher reads it: `senderEmail` is the
already-resolved SMTP address (`resolve_sender_smtp(msg) or "unknown"`);
COM attribute reads that can be empty are `Option`s with `none` for
absent/empty (Python falsiness). -/
structure Msg where
  senderEmail : String := "unknown"
  subjectRaw : String := ""
  bodyFull : String := ""
  toLine : String := ""
  ccLine : String := ""
  recipientAddrs : List String := []
  highImportance : Bool := false
  receivedIso : String := ""
  conversationId : Option String := none
  entryId : Option String := none
  storeId : Option String := none
  internetMessageId : Option String := none
  actualStore : String := ""
  deriving Repr, DecidableEq

def COMPLETION_SUBJECT_KEYWORD : String := "[COMPLETED]"

/-- `is_completion_subject(subject)`. -/
def is_completion_subject (subject : String) : Bool :=
  if subject = "" then false
  else strContains (pyLower subject) (pyLower COMPLETION_SUBJECT_KEYWORD)

/-- `is_internal_sender(smtp_addr)`: internal means `@sa.gov.au`. -/
def is_internal_sender (smtp_addr : String) : Bool :=
  if smtp_addr = "" then false
  else pyEndsWith (pyStrip (pyLower smtp_addr)) "@sa.gov.au"

/-- `is_staff_sender(smtp_addr, staff_list)`. -/
def is_staff_sender (smtp_addr : String) (staff_list : List String) : Bool :=
  if smtp_addr = "" then false
  else if staff_list.isEmpty then false
  else (staff_list.map (fun s => pyStrip (pyLower s))).contains
    (pyStrip (pyLower smtp_addr))

/-- `is_internal_reply(sender_email, subject, staff_list)` (Smart Filter). -/
def is_internal_reply (sender_email subject : String)
    (staff_list : List String) : Bool :=
  let is_staff := staff_list.contains (pyLower sender_email)
  let subject_lower := pyLower subject
  let is_reply :=
    ["re:", "accepted:", "declined:", "fw:", "fwd:"].any
      (fun p => pyStartsWith (pyStrip subject_lower) p)
  let is_bot_tagged :=
    strContains subject_lower "[assigned:" || strContains subject_lower "[completed:"
  is_staff && (is_reply || is_bot_tagged)

/-- `is_jira_candidate(subject, body, sender)`. -/
def is_jira_candidate (subject body sender : String) : Bool :=
  strContains (pyLower subject) "comment" ||
  strContains (pyLower body) "atlassian" ||
  strContains (pyLower body) "view request" ||
  strContains (pyLower sender) "jira"

/-- `is_jira_comment_email(body)`. -/
def is_jira_comment_email (body : String) : Bool :=
  strContains (pyLower body) "request comments:"

/-- `is_jira_automation_notification(sender_domain, subject, msg)`. -/
def is_jira_automation_notification (sender_domain : Option String)
    (m : Msg) : Bool :=
  match sender_domain with
  | none => false
  | some d =>
    if !strContains (pyLower d) "jonesradiology.atlassian.net" then false
    else
      let body_text := pyLower (pyTake m.bodyFull 3000)
      let human_markers :=
        ["?", "can you", "could you", "please", "urgent", "asap",
         "call", "phone", "ring", "not received", "follow up",
         "chasing", "still need", "not working", "failed", "error"]
      if human_markers.any (fun mk => strContains body_text mk) then false
      else
        let jira_patterns :=
          ["reply above this line", "view request", "service desk",
           "has been resolved", "re-open the ticket", "confirmation received",
           "your request has been received"]
        decide (2 ≤ (jira_patterns.filter
          (fun pt => strContains body_text pt)).length)

/-- `is_hib_notification(msg)`. -/
def is_hib_notification (m : Msg) : Bool :=
  let to_cc := pyLower (m.toLine ++ " " ++ m.ccLine)
  if strContains to_cc "@chib.had.sa.gov.au" then true
  else
    let body_lower := pyLower (pyTake m.bodyFull 4000)
    if strContains body_lower "whib.had.sa.gov.au" then true
    else
      let subject_lower := pyLower m.subjectRaw
      if pyStartsWith subject_lower "error:" then
        strContains body_lower "ensportal.visualtrace" ||
          strContains body_lower "imgproduction"
      else false

/-- `hib_contains_16110(msg)`. -/
def hib_contains_16110 (m : Msg) : Bool :=
  strContains m.subjectRaw "16110" ||
    strContains (pyTake m.bodyFull 4000) "16110"

/-- `message_has_completion_cc(msg, target_addr)`. -/
def message_has_completion_cc (m : Msg) (target_addr : String) : Bool :=
  let target := pyLower target_addr
  if target = "" then false
  else
    strContains (pyLower m.ccLine) target ||
    strContains (pyLower m.toLine) target ||
    m.recipientAddrs.any (fun a => strContains (pyLower a) target)

/-- `is_domain_known(sender_email, known_domains)`. -/
def is_domain_known (sender_email : String) (known_domains : List String) :
    Bool :=
  if sender_email = "" || known_domains.isEmpty then false
  else
    let email_str := pyStrip sender_email
    let email_str :=
      if strContains email_str "<" && strContains email_str ">" then
        pyStrip (beforeFirstChar (pyDrop email_str
          ((email_str.toList.takeWhile (· ≠ '<')).length + 1)) '>')
      else email_str
    if !strContains email_str "@" then false
    else
      let domain := pyLower (pyStrip (afterLastChar email_str '@'))
      if domain = "" then false
      else known_domains.contains domain

/-- `is_sami_support_staff(sender_email, policy)`. -/
def is_sami_support_staff (sender_email : String) (policy : Policy) : Bool :=
  if sender_email = "" then false
  else (policy.sami_support_staff.map (fun e => pyStrip (pyLower e))).contains
    (pyStrip (pyLower sender_email))

/-- `check_msg_mailbox_store(msg, expected_store)`: `(ok, actual)`. -/
def check_msg_mailbox_store (m : Msg) (expected_store : String) :
    Bool × String :=
  if expected_store = "" then (true, "")
  else
    (pyStrip (pyLower m.actualStore) = pyStrip (pyLower expected_store),
     m.actualStore)

/-- The durable identity dict of `compute_message_identity`. -/
structure MsgIdentity where
  entry_id : Option String := none
  store_id : Option String := none
  internet_message_id : Option String := none
  deriving Repr, DecidableEq

/-- `compute_message_identity(msg, sender_email, subject, received_iso)`. -/
def compute_message_identity (m : Msg) (sender_email subject received_iso :
    String) : String × MsgIdentity :=
  let ident : MsgIdentity :=
    { entry_id := m.entryId, store_id := m.storeId,
      internet_message_id := m.internetMessageId }
  match m.storeId, m.entryId with
  | some sid, some eid => ("store:" ++ sid ++ "|entry:" ++ eid, ident)
  | _, _ =>
    match m.internetMessageId with
    | some imid => ("internet:" ++ imid, ident)
    | none =>
      match m.entryId with
      | some eid => (eid, ident)
      | none =>
        ("fallback:" ++ sender_email ++ "|" ++ subject ++ "|" ++ received_iso,
         ident)

/-! ## Persistent per-tick state: ledger, stats log, rotation, poison -/

/-- One processed-ledger entry (`processed_ledger.json` values).  Timestamps
are abstracted to the tick clock `Env.now`. -/
structure LedgerEntry where
  ts : Nat := 0
  assigned_to : String := ""
  risk : String := ""
  route : Option String := none
  reason : Option String := none
  match_level : Option String := none
  entry_id : Option String := none
  store_id : Option String := none
  internet_message_id : Option String := none
  conversation_id : Option String := none
  completed_at : Option Nat := none
  completed_by : Option String := none
  completion_source : Option String := none
  completion_subject : Option String := none
  apps_fwd : Bool := false
  msg_key : Option String := none
  deriving Repr, DecidableEq

/-- One `daily_stats.csv` row (the columns the claims speak about). -/
structure StatsRow where
  subject : String := ""
  assigned_to : String := ""
  sender : String := ""
  risk_level : String := ""
  domain_bucket : String := ""
  action : String := ""
  policy_source : String := ""
  event_type : String := ""
  msg_key : String := ""
  deriving Repr, DecidableEq

/-- The ledger as an insertion-ordered association list (a Python dict). -/
abbrev Ledger := List (String × LedgerEntry)

def lookupEntry : Ledger → String → Option LedgerEntry
  | [], _ => none
  | (k, e) :: rest, key => if k = key then some e else lookupEntry rest key

/-- Python dict assignment: replace in place, else append. -/
def insertEntry : Ledger → String → LedgerEntry → Ledger
  | [], key, e => [(key, e)]
  | (k, old) :: rest, key, e =>
    if k = key then (k, e) :: rest else (k, old) :: insertEntry rest key e

/-- `find_ledger_key_by_conversation_id(ledger, conversation_id)`. -/
def find_ledger_key_by_conversation_id (ledger : Ledger)
    (conversation_id : Option String) : Option String :=
  match conversation_id with
  | none => none
  | some c => (ledger.find? (fun kv => kv.2.conversation_id = some c)).map (·.1)

/-- Poison counters (`poison_counts.json`). -/
abbrev PoisonCounts := List (String × Nat)

def lookupCount : PoisonCounts → String → Nat
  | [], _ => 0
  | (k, n) :: rest, key => if k = key then n else lookupCount rest key

def insertCount : PoisonCounts → String → Nat → PoisonCounts
  | [], key, n => [(key, n)]
  | (k, old) :: rest, key, n =>
    if k = key then (k, n) :: rest else (k, old) :: insertCount rest key n

/-- The mutable state a tick reads and writes. -/
structure TickState where
  ledger : Ledger := []
  stats : List StatsRow := []
  roster : RosterState := ⟨0, 0⟩
  poison : PoisonCounts := []
  deriving Repr, DecidableEq

def addStats (st : TickState) (row : StatsRow) : TickState :=
  { st with stats := st.stats ++ [row] }

def putLedger (st : TickState) (key : String) (e : LedgerEntry) : TickState :=
  { st with ledger := insertEntry st.ledger key e }

/-- External transport effects issued while processing one message. -/
inductive ExtAction
  | moveQuarantine
  | moveHib
  | moveProcessed
  | moveCompleted
  | moveSystemNotification
  | moveJiraFollowUp
  | sendForward (kind : String)
  | watchdogAdd
  | hibWatchdogObserve
  | managerHoldNotify
  deriving Repr, DecidableEq

/-- Where the per-message state machine terminated (one value per
`continue` site of the loop body). -/
inductive MsgOutcome
  | quarantineFolderMissing
  | quarantineWrongMailbox
  | quarantined
  | ledgerSkip
  | hibArchived
  | internalStaffSkip
  | internalNonStaffForwarded
  | internalNonStaffSkipped
  | hibNoiseArchived
  | hibNoiseFolderMissing
  | hibNoiseWrongMailbox
  | jiraFollowupDupSkip
  | jiraFollowupDisabled
  | jiraFollowupWrongMailbox
  | jiraFollowupNoStaff
  | jiraFollowupSaveFail
  | jiraFollowupAssigned
  | completionMatched
  | completionStandalone
  | completionSaveFail
  | completionCcProcessed
  | smartFilterCompletion
  | smartFilterSaveFail
  | jiraAutomationSkip
  | jiraAutomationSaveFail
  | holdUnknownFolderMissing
  | holdUnknownSaveFail
  | holdUnknownWrongMailbox
  | holdUnknown
  | samiCompletion
  | samiCompletionSaveFail
  | noStaffAvailable
  | criticalAlreadyProcessed
  | assignSaveFail
  | systemNotificationArchived
  | assigned (assignee : String)
  | processingError (quarantined : Bool)
  deriving Repr, DecidableEq

structure MsgResult where
  outcome : MsgOutcome
  actions : List ExtAction := []
  deriving Repr, DecidableEq

/-- The tick-scoped environment `process_inbox` assembles before the loop
(config, hot-reloaded policy, folder handles, override addresses).
Booleans `*Present` model non-`None` folder handles; `saveOk` models
`atomic_write_json` success for this tick's files. -/
structure Env where
  policy : Policy := {}
  staff_list : List String := []
  target_store : String := ""
  quarantinePresent : Bool := true
  hibPresent : Bool := true
  systemNotificationPresent : Bool := true
  completedDestPresent : Bool := true
  jiraFollowUpEnabled : Bool := false
  allowlistValid : Bool := true
  known_domains : List String := []
  hibNoiseSenderEquals : String := ""
  hibNoiseSubjectContainsAll : List String := []
  hibNoiseSubjectContainsAny : List String := []
  manager_cc_addr : String := ""
  apps_cc_addr : String := ""
  completionCcEnabled : Bool := false
  effective_completion_cc : String := ""
  policy_source : String := "valid"
  safeMode : Bool := true
  saveOk : Bool := true
  sendUrgencyNotifications : Bool := false
  now : Nat := 0
  deriving Repr, DecidableEq

/-- `RISK_FILTER_ENABLED` module constant (`False` in the source). -/
def RISK_FILTER_ENABLED : Bool := false

/-- The `hib_noise` rule match (`process_inbox` lines 2974-2985). -/
def hibNoiseMatch (env : Env) (sender_email subject : String) : Bool :=
  let hib_sender := pyLower (pyStrip env.hibNoiseSenderEquals)
  if hib_sender ≠ "" && sender_email = hib_sender then
    let subject_lower := pyLower subject
    let all_ok :=
      if env.hibNoiseSubjectContainsAll.isEmpty then true
      else env.hibNoiseSubjectContainsAll.all
        (fun t => strContains subject_lower (pyLower t))
    let any_ok :=
      if env.hibNoiseSubjectContainsAny.isEmpty then false
      else env.hibNoiseSubjectContainsAny.any
        (fun t => strContains subject_lower (pyLower t))
    all_ok && any_ok
  else false

/-! ## The per-message state machine of `process_inbox` (lines 2781-3749)

Each stage returns `some (state, result)` when the loop body hits a
`continue` inside it, and `none` when control falls through to the next
stage.  Logging is not modelled; transport calls are assumed to succeed
(their failure handling is outside the claims). -/

/-- The values the loop body computes for one message before branching. -/
structure MsgCtx where
  m : Msg
  sender_email : String
  sender_domain : Option String
  domain_bucket : String
  match_level : Option String
  subject : String
  body : String
  high_importance : Bool
  conversation_id : Option String
  message_key : String
  identity : MsgIdentity
  deriving Repr, DecidableEq

/-- Lines 2794-2813 and 2837-2872: sender resolution, classification and
identity computation. -/
def mkCtx (env : Env) (m : Msg) : MsgCtx :=
  let sender_email := m.senderEmail
  let sender_domain := extract_sender_domain sender_email
  let (domain_bucket, match_level) := pipeline_classify sender_email env.policy
  let subject := pyStrip m.subjectRaw
  let body := pyTake m.bodyFull 500
  let (message_key, identity) :=
    compute_message_identity m sender_email subject m.receivedIso
  { m := m, sender_email := sender_email, sender_domain := sender_domain,
    domain_bucket := domain_bucket, match_level := match_level,
    subject := subject, body := body, high_importance := m.highImportance,
    conversation_id := m.conversationId, message_key := message_key,
    identity := identity }

/-- The `WRONG_MAILBOX` stats row shape used throughout the loop body. -/
def wrongMailboxRow (env : Env) (c : MsgCtx) (risk_level : String) : StatsRow :=
  { subject := c.subject, assigned_to := "skipped", sender := c.sender_email,
    risk_level := risk_level, domain_bucket := c.domain_bucket,
    action := "WRONG_MAILBOX", policy_source := env.policy_source }

/-- Lines 2820-2835: quarantine-bucket routing (runs before identity
lookup). -/
def quarantineStage (env : Env) (st : TickState) (c : MsgCtx) :
    Option (TickState × MsgResult) :=
  if c.domain_bucket = "quarantine" then
    if !env.quarantinePresent then some (st, ⟨.quarantineFolderMissing, []⟩)
    else if !(check_msg_mailbox_store c.m env.target_store).1 then
      some (st, ⟨.quarantineWrongMailbox, []⟩)
    else some (st, ⟨.quarantined, [.moveQuarantine]⟩)
  else none

/-- Lines 2874-2877: skip a durable identity already in the ledger. -/
def ledgerSkipStage (st : TickState) (c : MsgCtx) :
    Option (TickState × MsgResult) :=
  if (lookupEntry st.ledger c.message_key).isSome then
    some (st, ⟨.ledgerSkip, []⟩)
  else none

/-- The HIB archive body shared by lines 2890-2928 and 2993-3032: move,
ledger entry, optional 16110 escalation, stats row, watchdog observation. -/
def hibArchive (env : Env) (st : TickState) (c : MsgCtx)
    (outcome : MsgOutcome) : TickState × MsgResult :=
  let e0 : LedgerEntry :=
    { ts := env.now, assigned_to := "hib", risk := "normal",
      route := some "HIB", entry_id := c.identity.entry_id }
  let fwd16110 := hib_contains_16110 c.m && env.apps_cc_addr ≠ ""
  let e1 := if fwd16110 then { e0 with apps_fwd := true } else e0
  let sendActs : List ExtAction :=
    if fwd16110 then (if env.safeMode then [] else [.sendForward "apps_team"])
    else []
  let st1 := putLedger st c.message_key e1
  let st2 := addStats st1
    { subject := c.subject, assigned_to := "hib", sender := c.sender_email,
      risk_level := "normal", domain_bucket := "hib", action := "ROUTE_HIB",
      policy_source := env.policy_source }
  (st2, ⟨outcome, [.moveHib] ++ sendActs ++ [.hibWatchdogObserve]⟩)

/-- Lines 2879-2932: HIB notification routing.  A missing HIB folder or a
mailbox-store mismatch leaves `hib_moved` false and falls through. -/
def hibStage (env : Env) (st : TickState) (c : MsgCtx) :
    Option (TickState × MsgResult) :=
  if is_hib_notification c.m then
    if !env.hibPresent then none
    else if !(check_msg_mailbox_store c.m env.target_store).1 then none
    else some (hibArchive env st c .hibArchived)
  else none

/-- Lines 2933-2940: internal staff guard. -/
def staffGuardStage (env : Env) (st : TickState) (c : MsgCtx) :
    Option (TickState × MsgResult) :=
  let sender_override_matched := c.match_level = some "sender"
  if !sender_override_matched && is_internal_sender c.sender_email &&
      is_staff_sender c.sender_email env.staff_list then
    if !is_completion_subject c.subject then
      some (st, ⟨.internalStaffSkip, []⟩)
    else none
  else none

/-- Lines 2942-2972: internal non-staff safety guard. -/
def internalNonStaffStage (env : Env) (st : TickState) (c : MsgCtx) :
    Option (TickState × MsgResult) :=
  let sender_override_matched := c.match_level = some "sender"
  if !sender_override_matched && is_internal_sender c.sender_email &&
      !is_staff_sender c.sender_email env.staff_list then
    if (check_msg_mailbox_store c.m env.target_store).1 &&
        env.manager_cc_addr ≠ "" then
      let e : LedgerEntry :=
        { ts := env.now, assigned_to := "manager_review", risk := "normal",
          route := some "internal_non_staff", entry_id := c.identity.entry_id }
      let st1 := putLedger st c.message_key e
      let st2 := addStats st1
        { subject := c.subject, assigned_to := "manager_review",
          sender := c.sender_email, risk_level := "normal",
          domain_bucket := c.domain_bucket, action := "INTERNAL_NON_STAFF",
          policy_source := env.policy_source }
      some (st2, ⟨.internalNonStaffForwarded,
        (if env.safeMode then [] else [.sendForward "manager"]) ++
          [.moveProcessed]⟩)
    else some (st, ⟨.internalNonStaffSkipped, []⟩)
  else none

/-- Lines 2974-3035: configured HIB noise rule. -/
def hibNoiseStage (env : Env) (st : TickState) (c : MsgCtx) :
    Option (TickState × MsgResult) :=
  if hibNoiseMatch env c.sender_email c.subject then
    if !env.hibPresent then some (st, ⟨.hibNoiseFolderMissing, []⟩)
    else if !(check_msg_mailbox_store c.m env.target_store).1 then
      some (st, ⟨.hibNoiseWrongMailbox, []⟩)
    else some (hibArchive env st c .hibNoiseArchived)
  else none

/-- Lines 3037-3157: Jira follow-up routing. -/
def jiraStage (env : Env) (st : TickState) (c : MsgCtx) :
    Option (TickState × MsgResult) :=
  if is_jira_candidate c.subject c.body c.sender_email &&
      is_jira_comment_email c.body then
    let fkey := c.message_key ++ "::JIRA_FOLLOWUP"
    if (lookupEntry st.ledger fkey).isSome then
      some (st, ⟨.jiraFollowupDupSkip, []⟩)
    else if !env.jiraFollowUpEnabled then
      some (st, ⟨.jiraFollowupDisabled, []⟩)
    else if !(check_msg_mailbox_store c.m env.target_store).1 then
      some (addStats st (wrongMailboxRow env c "normal"),
        ⟨.jiraFollowupWrongMailbox, []⟩)
    else
      let (assignee?, roster1) := get_next_staff env.staff_list st.roster
      let stR := { st with roster := roster1 }
      match assignee? with
      | none => some (stR, ⟨.jiraFollowupNoStaff, [.moveJiraFollowUp]⟩)
      | some assignee =>
        let e : LedgerEntry :=
          { ts := env.now, assigned_to := assignee, risk := "normal",
            route := some "JIRA_FOLLOWUP", entry_id := c.identity.entry_id,
            store_id := c.identity.store_id,
            internet_message_id := c.identity.internet_message_id,
            conversation_id := c.conversation_id }
        let ef : LedgerEntry :=
          { ts := env.now, assigned_to := assignee,
            route := some "JIRA_FOLLOWUP", msg_key := some c.message_key }
        let st1 := putLedger (putLedger stR c.message_key e) fkey ef
        let acts := [ExtAction.moveJiraFollowUp] ++
          (if env.safeMode then [] else [.sendForward "jira_assignee"])
        if !env.saveOk then some (st1, ⟨.jiraFollowupSaveFail, acts⟩)
        else
          some (addStats st1
            { subject := c.subject, assigned_to := assignee,
              sender := c.sender_email, risk_level := "normal",
              domain_bucket := c.domain_bucket, action := "JIRA_FOLLOWUP",
              policy_source := env.policy_source,
              event_type := "JIRA_FOLLOWUP_ASSIGNED",
              msg_key := c.message_key },
            ⟨.jiraFollowupAssigned, acts⟩)
  else none

/-- Lines 3159-3272: completion detection (subject keyword, then the
completion-CC workflow). -/
def completionStage (env : Env) (st : TickState) (c : MsgCtx) :
    Option (TickState × MsgResult) :=
  let staff_sender_flag := env.staff_list.contains c.sender_email
  let keyword_hit := is_completion_subject c.subject
  if staff_sender_flag && keyword_hit then
    match find_ledger_key_by_conversation_id st.ledger c.conversation_id with
    | some match_key =>
      let entry := (lookupEntry st.ledger match_key).getD {}
      let e := { entry with
        completed_at := some env.now
        completed_by := some c.sender_email
        completion_source := some "subject_keyword" }
      let st1 := putLedger st match_key e
      let st2 := addStats st1
        { subject := c.subject, assigned_to := "completed",
          sender := c.sender_email, risk_level := "COMPLETION_MATCHED",
          domain_bucket := c.domain_bucket,
          action := "COMPLETION_SUBJECT_KEYWORD",
          policy_source := env.policy_source }
      if !env.saveOk then some (st2, ⟨.completionSaveFail, []⟩)
      else if !(check_msg_mailbox_store c.m env.target_store).1 then
        some (addStats st2 (wrongMailboxRow env c "normal"),
          ⟨.completionMatched, []⟩)
      else some (st2, ⟨.completionMatched, [.moveProcessed]⟩)
    | none =>
      let e : LedgerEntry :=
        { ts := env.now, assigned_to := "completed", risk := "normal",
          completion_source := some "staff_completed_confirmation",
          entry_id := c.identity.entry_id, store_id := c.identity.store_id,
          internet_message_id := c.identity.internet_message_id,
          conversation_id := c.conversation_id }
      let st1 := putLedger st c.message_key e
      let st2 := addStats st1
        { subject := c.subject, assigned_to := "completed",
          sender := c.sender_email, risk_level := "normal",
          domain_bucket := c.domain_bucket,
          action := "STAFF_COMPLETED_CONFIRMATION",
          policy_source := env.policy_source, event_type := "COMPLETED",
          msg_key := c.message_key }
      if !env.saveOk then some (st2, ⟨.completionSaveFail, []⟩)
      else if !(check_msg_mailbox_store c.m env.target_store).1 then
        some (addStats st2 (wrongMailboxRow env c "normal"),
          ⟨.completionStandalone, []⟩)
      else if env.completedDestPresent then
        some (st2, ⟨.completionStandalone, [.moveCompleted]⟩)
      else some (st2, ⟨.completionStandalone, [.moveProcessed]⟩)
  else
    let is_reply := pyStartsWith (pyStrip (pyLower c.subject)) "re:"
    if env.completionCcEnabled && staff_sender_flag && is_reply &&
        message_has_completion_cc c.m env.effective_completion_cc then
      let st2 :=
        match find_ledger_key_by_conversation_id st.ledger c.conversation_id with
        | some match_key =>
          let entry := (lookupEntry st.ledger match_key).getD {}
          let e := { entry with
            completed_at := some env.now
            completed_by := some c.sender_email
            completion_source := some "reply_all_cc"
            completion_subject := some c.subject }
          addStats (putLedger st match_key e)
            { subject := c.subject, assigned_to := "completed",
              sender := c.sender_email, risk_level := "COMPLETION_MATCHED",
              domain_bucket := c.domain_bucket, action := "COMPLETION_MATCHED",
              policy_source := env.policy_source, event_type := "COMPLETED" }
        | none =>
          addStats st
            { subject := c.subject, assigned_to := "completed",
              sender := c.sender_email, risk_level := "COMPLETION_UNMATCHED",
              domain_bucket := c.domain_bucket,
              action := "COMPLETION_UNMATCHED",
              policy_source := env.policy_source, event_type := "COMPLETED" }
      if !env.saveOk then some (st2, ⟨.completionSaveFail, []⟩)
      else if !(check_msg_mailbox_store c.m env.target_store).1 then
        some (addStats st2 (wrongMailboxRow env c "normal"),
          ⟨.completionCcProcessed, []⟩)
      else some (st2, ⟨.completionCcProcessed, [.moveProcessed]⟩)
    else none

/-- Lines 3274-3304: smart filter for internal replies. -/
def smartFilterStage (env : Env) (st : TickState) (c : MsgCtx) :
    Option (TickState × MsgResult) :=
  if is_internal_reply c.sender_email c.subject env.staff_list then
    let st1 := addStats st
      { subject := c.subject, assigned_to := "completed",
        sender := c.sender_email, risk_level := "normal",
        domain_bucket := c.domain_bucket, action := "SMART_FILTER_COMPLETION",
        policy_source := env.policy_source, event_type := "COMPLETED" }
    let e : LedgerEntry :=
      { ts := env.now, assigned_to := "completed", risk := "normal",
        entry_id := c.identity.entry_id, store_id := c.identity.store_id,
        internet_message_id := c.identity.internet_message_id,
        conversation_id := c.conversation_id }
    let st2 := putLedger st1 c.message_key e
    if !env.saveOk then some (st2, ⟨.smartFilterSaveFail, []⟩)
    else if !(check_msg_mailbox_store c.m env.target_store).1 then
      some (addStats st2 (wrongMailboxRow env c "normal"),
        ⟨.smartFilterCompletion, []⟩)
    else some (st2, ⟨.smartFilterCompletion, [.moveProcessed]⟩)
  else none

/-- Lines 3306-3336: Jira automation notification filter. -/
def jiraAutomationStage (env : Env) (st : TickState) (c : MsgCtx) :
    Option (TickState × MsgResult) :=
  if is_jira_automation_notification c.sender_domain c.m then
    let st1 := addStats st
      { subject := c.subject, assigned_to := "non_actionable",
        sender := c.sender_email, risk_level := "normal",
        domain_bucket := c.domain_bucket,
        action := "JIRA_AUTOMATION_NOTIFICATION",
        policy_source := env.policy_source }
    let e : LedgerEntry :=
      { ts := env.now, assigned_to := "non_actionable", risk := "normal",
        reason := some "JIRA_AUTOMATION_NOTIFICATION",
        entry_id := c.identity.entry_id, store_id := c.identity.store_id,
        internet_message_id := c.identity.internet_message_id,
        conversation_id := c.conversation_id }
    let st2 := putLedger st1 c.message_key e
    if !env.saveOk then some (st2, ⟨.jiraAutomationSaveFail, []⟩)
    else if !(check_msg_mailbox_store c.m env.target_store).1 then
      some (addStats st2 (wrongMailboxRow env c "normal"),
        ⟨.jiraAutomationSkip, []⟩)
    else some (st2, ⟨.jiraAutomationSkip, [.moveProcessed]⟩)
  else none

/-- Lines 3338-3398: unknown-domain hold (ledger written and saved before
the store guard and the physical quarantine move). -/
def unknownHoldStage (env : Env) (st : TickState) (c : MsgCtx) :
    Option (TickState × MsgResult) :=
  if !env.allowlistValid || !is_domain_known c.sender_email env.known_domains
      then
    if !env.quarantinePresent then some (st, ⟨.holdUnknownFolderMissing, []⟩)
    else
      let e : LedgerEntry :=
        { ts := env.now, assigned_to := "hold", risk := "normal",
          reason := some "HOLD_UNKNOWN_DOMAIN",
          entry_id := c.identity.entry_id, store_id := c.identity.store_id,
          internet_message_id := c.identity.internet_message_id,
          conversation_id := c.conversation_id }
      let st1 := putLedger st c.message_key e
      if !env.saveOk then some (st1, ⟨.holdUnknownSaveFail, []⟩)
      else if !(check_msg_mailbox_store c.m env.target_store).1 then
        some (addStats st1 (wrongMailboxRow env c "normal"),
          ⟨.holdUnknownWrongMailbox, []⟩)
      else
        let notifyActs : List ExtAction :=
          if env.manager_cc_addr ≠ "" && !env.safeMode then
            [.managerHoldNotify]
          else []
        let st2 := addStats st1
          { subject := c.subject, assigned_to := "hold",
            sender := c.sender_email, risk_level := "normal",
            domain_bucket := "unknown", action := "HOLD_UNKNOWN_DOMAIN",
            policy_source := env.policy_source }
        some (st2, ⟨.holdUnknown, [.moveQuarantine] ++ notifyActs⟩)
  else none

/-- The `_non_staff` assignee names of line 3737. -/
def nonStaffAssignees : List String :=
  ["bot", "completed", "error", "hib", "hold", "manager_review",
   "non_actionable", "quarantined", "skipped", "system_notification"]

/-- Lines 3410-3478: the authoritative routing decision —
`(action_taken, assignee, rotation state, is_completion,
hold_recipients)`. -/
def routeDecision (env : Env) (st : TickState) (c : MsgCtx)
    (hib_noise_match : Bool) :
    String × Option String × RosterState × Bool × List String :=
  if hib_noise_match then
    ("hib_noise_suppressed", some "hib_noise", st.roster, false, [])
  else if c.domain_bucket = "external_image_request" then
    let (a, r) := get_next_staff env.staff_list st.roster
    ("IMAGE_REQUEST_EXTERNAL", a, r, false, [])
  else if c.domain_bucket = "internal" then
    if is_sami_support_staff c.sender_email env.policy then
      ("COMPLETION", some "completed", st.roster, true, [])
    else
      let (a, r) := get_next_staff env.staff_list st.roster
      ("INTERNAL_QUERY", a, r, false, [])
  else if c.domain_bucket = "system_notification" then
    ("SYSTEM_NOTIFICATION", some "system_notification", st.roster, false, [])
  else if c.domain_bucket = "unknown" || c.domain_bucket = "hold" then
    ("UNKNOWN_DOMAIN", some "hold", st.roster, false,
     if env.manager_cc_addr ≠ "" then [env.manager_cc_addr] else [])
  else
    let (a, r) := get_next_staff env.staff_list st.roster
    ("FALLBACK_ROUTING", a, r, false, [])

/-- Lines 3484-3513: the early SAMI-completion handling. -/
def samiBody (env : Env) (st : TickState) (c : MsgCtx)
    (action_taken : String) : TickState × MsgResult :=
  let st1 := addStats st
    { subject := c.subject, assigned_to := "completed",
      sender := c.sender_email, risk_level := "normal",
      domain_bucket := c.domain_bucket, action := action_taken,
      policy_source := env.policy_source, event_type := "COMPLETED" }
  let (stOk, acts) :=
    if !(check_msg_mailbox_store c.m env.target_store).1 then
      (addStats st1 (wrongMailboxRow env c "normal"), ([] : List ExtAction))
    else (st1, [.moveProcessed])
  let e : LedgerEntry :=
    { ts := env.now, assigned_to := "completed", risk := "normal",
      completion_source := some "sami_support_staff",
      entry_id := c.identity.entry_id, store_id := c.identity.store_id,
      internet_message_id := c.identity.internet_message_id,
      conversation_id := c.conversation_id }
  let st2 := putLedger stOk c.message_key e
  if !env.saveOk then (st2, ⟨.samiCompletionSaveFail, acts⟩)
  else (st2, ⟨.samiCompletion, acts⟩)

/-- Lines 3547-3565: silent system-notification archive (after the ledger
write). -/
def systemNotificationBody (env : Env) (st1 : TickState) (c : MsgCtx)
    (assignee risk_level action_taken : String) : TickState × MsgResult :=
  let st2 := addStats st1
    { subject := c.subject, assigned_to := assignee,
      sender := c.sender_email, risk_level := risk_level,
      domain_bucket := c.domain_bucket, action := action_taken,
      policy_source := env.policy_source }
  if !(check_msg_mailbox_store c.m env.target_store).1 then
    (addStats st2 (wrongMailboxRow env c risk_level),
     ⟨.systemNotificationArchived, []⟩)
  else if env.systemNotificationPresent then
    (st2, ⟨.systemNotificationArchived, [.moveSystemNotification]⟩)
  else (st2, ⟨.systemNotificationArchived, [.moveProcessed]⟩)

/-- Lines 3566-3748: forward with risk banner and watchdog, the mailbox
store guards, `mark_processed` for critical, the `ASSIGNED` stats row and
the final archive. `st1` already holds the saved ledger entry. -/
def forwardBody (env : Env) (st1 : TickState) (c : MsgCtx)
    (assignee risk_level action_taken : String)
    (hold_recipients : List String) : TickState × MsgResult :=
  let watchdogActs : List ExtAction :=
    if risk_level = "urgent" || risk_level = "critical" then [.watchdogAdd]
    else []
  -- mailbox store guard before sending (lines 3714-3725)
  let storeOk1 := (check_msg_mailbox_store c.m env.target_store).1
  let (st2, sendActs) :=
    if !storeOk1 then
      (addStats st1 (wrongMailboxRow env c risk_level),
       ([] : List ExtAction))
    else if env.safeMode then (st1, [])
    else
      (st1,
       [.sendForward
         (if !hold_recipients.isEmpty then "manager" else "assignee")])
  -- mark_processed for critical (lines 3727-3730)
  let st3 :=
    if risk_level = "critical" then
      if env.saveOk then
        let old := (lookupEntry st2.ledger c.message_key).getD {}
        putLedger st2 c.message_key
          { old with ts := env.now, reason := some "critical_forwarded" }
      else st2
    else st2
  -- ASSIGNED stats row (lines 3736-3741)
  let a_norm := pyLower (pyStrip assignee)
  let evt :=
    if strContains a_norm "@" && !nonStaffAssignees.contains a_norm
      then "ASSIGNED" else ""
  let st4 := addStats st3
    { subject := c.subject, assigned_to := assignee,
      sender := c.sender_email, risk_level := risk_level,
      domain_bucket := c.domain_bucket, action := action_taken,
      policy_source := env.policy_source, event_type := evt,
      msg_key := c.message_key }
  -- archive guard (lines 3742-3748)
  let storeOk2 := (check_msg_mailbox_store c.m env.target_store).1
  if !storeOk2 then
    (addStats st4 (wrongMailboxRow env c risk_level),
     ⟨.assigned assignee, watchdogActs ++ sendActs⟩)
  else
    (st4, ⟨.assigned assignee,
      watchdogActs ++ sendActs ++ [.moveProcessed]⟩)

/-- Lines 3479-3749: the remainder of the loop body once the routing
decision is made — audit suffix, SAMI completion, ledger write, silent
system-notification move, forward with store guards and `ASSIGNED` row. -/
def routingBody (env : Env) (st : TickState) (c : MsgCtx)
    (risk_level : String) (action_taken0 : String)
    (assignee? : Option String) (roster1 : RosterState)
    (is_completion : Bool) (hold_recipients : List String) :
    TickState × MsgResult :=
  let st := { st with roster := roster1 }
  -- audit-trail suffix (line 3480)
  let action_taken :=
    match c.match_level with
    | some lvl =>
      if action_taken0 ≠ "" && action_taken0 ≠ "hib_noise_suppressed" then
        action_taken0 ++ "/" ++ lvl
      else action_taken0
    | none => action_taken0
  if is_completion then samiBody env st c action_taken
  else
    match assignee? with
    | none => (st, ⟨.noStaffAvailable, []⟩)
    | some assignee =>
      if risk_level = "critical" &&
          (lookupEntry st.ledger c.message_key).isSome then
        (st, ⟨.criticalAlreadyProcessed, []⟩)
      else
        -- ledger write before any transport action (lines 3525-3545)
        let e : LedgerEntry :=
          { ts := env.now, assigned_to := assignee, risk := risk_level,
            reason := if action_taken0 = "hib_noise_suppressed" then
              some "hib_noise_suppressed" else none,
            match_level := c.match_level,
            entry_id := c.identity.entry_id, store_id := c.identity.store_id,
            internet_message_id := c.identity.internet_message_id,
            conversation_id := c.conversation_id }
        let st1 := putLedger st c.message_key e
        if !env.saveOk then (st1, ⟨.assignSaveFail, []⟩)
        else if c.domain_bucket = "system_notification" then
          systemNotificationBody env st1 c assignee risk_level action_taken
        else
          forwardBody env st1 c assignee risk_level action_taken
            hold_recipients

/-- Lines 3400-3749: risk annotation, the routing decision, and the body
above. -/
def routingStage (env : Env) (st : TickState) (c : MsgCtx) :
    TickState × MsgResult :=
  let hib_noise_match := hibNoiseMatch env c.sender_email c.subject
  let risk :=
    if hib_noise_match || !RISK_FILTER_ENABLED then ("normal", none)
    else detect_risk c.subject c.body c.high_importance
  match routeDecision env st c hib_noise_match with
  | (action_taken0, assignee?, roster1, is_completion, hold_recipients) =>
    routingBody env st c risk.1 action_taken0 assignee? roster1
      is_completion hold_recipients

/-- The whole per-message try-body (lines 2781-3749). -/
def processMessage (env : Env) (st : TickState) (m : Msg) :
    TickState × MsgResult :=
  let c := mkCtx env m
  match quarantineStage env st c with
  | some r => r
  | none =>
  match ledgerSkipStage st c with
  | some r => r
  | none =>
  match hibStage env st c with
  | some r => r
  | none =>
  match staffGuardStage env st c with
  | some r => r
  | none =>
  match internalNonStaffStage env st c with
  | some r => r
  | none =>
  match hibNoiseStage env st c with
  | some r => r
  | none =>
  match jiraStage env st c with
  | some r => r
  | none =>
  match completionStage env st c with
  | some r => r
  | none =>
  match smartFilterStage env st c with
  | some r => r
  | none =>
  match jiraAutomationStage env st c with
  | some r => r
  | none =>
  match unknownHoldStage env st c with
  | some r => r
  | none => routingStage env st c

/-- Lines 3751-3779: the per-message `except` handler — stats row,
poison-counter increment, quarantine at the threshold, loop continues. -/
def handle_processing_exception (env : Env) (st : TickState) (m : Msg) :
    TickState × MsgResult :=
  let c := mkCtx env m
  let st1 := addStats st
    { subject := c.subject, assigned_to := "error", sender := c.sender_email,
      risk_level := "PROCESSING_ERROR", domain_bucket := c.domain_bucket,
      action := "PROCESSING_ERROR", policy_source := env.policy_source }
  let poison_count := lookupCount st1.poison c.message_key + 1
  let st2 := { st1 with
    poison := insertCount st1.poison c.message_key poison_count }
  if 3 ≤ poison_count then
    if env.quarantinePresent then
      if !(check_msg_mailbox_store c.m env.target_store).1 then
        (addStats st2 (wrongMailboxRow env c "QUARANTINED"),
         ⟨.processingError false, []⟩)
      else
        (addStats st2
          { subject := c.subject, assigned_to := "quarantined",
            sender := c.sender_email, risk_level := "QUARANTINED",
            domain_bucket := c.domain_bucket, action := "QUARANTINED",
            policy_source := env.policy_source },
         ⟨.processingError true, [.moveQuarantine]⟩)
    else (st2, ⟨.processingError false, []⟩)
  else (st2, ⟨.processingError false, []⟩)

/-- The per-message loop: a message either runs the try-body or (when its
processing raises, modelled by the `Bool`) the except handler; the loop
always continues to the next message. -/
def processTick (env : Env) (st : TickState) :
    List (Msg × Bool) → TickState × List MsgResult
  | [] => (st, [])
  | (m, raises) :: rest =>
    let (st1, r) :=
      if raises then handle_processing_exception env st m
      else processMessage env st m
    let (st2, rs) := processTick env st1 rest
    (st2, r :: rs)

/-! ## The processed-ledger file gate of a tick (lines 1907-1920, 2771-2779) -/

/-- The processed-ledger file on disk: `none` = absent, `some none` =
present but unreadable/corrupt JSON, `some (some l)` = valid.  `writeOk`
models whether `atomic_write_json` succeeds. -/
structure LedgerFs where
  file : Option (Option Ledger) := none
  writeOk : Bool := true
  deriving Repr, DecidableEq

/-- `ensure_processed_ledger_exists(path)`: `True` when the file exists;
otherwise bootstrap an empty ledger (`{}`) and return `True` when the
write succeeds, `False` when it fails. -/
def ensure_processed_ledger_exists (fs : LedgerFs) : Bool × LedgerFs :=
  match fs.file with
  | some _ => (true, fs)
  | none =>
    if fs.writeOk then (true, { fs with file := some (some []) })
    else (false, fs)

/-- `load_processed_ledger()` (`safe_load_json` with `required=True`):
`None` when the file is missing or corrupt. -/
def load_processed_ledger (fs : LedgerFs) : Option Ledger :=
  match fs.file with
  | some (some l) => some l
  | _ => none

inductive TickOutcome
  | noMessages
  | skippedMissingLedger
  | ran (st : TickState) (results : List MsgResult)
  deriving Repr, DecidableEq

/-- The tick from message enumeration through the per-message loop
(lines 2765-2780 and the loop): no messages → nothing; ledger bootstrap
failure or load failure → the whole tick is skipped; otherwise run the
loop over every unread message. -/
def runTick (env : Env) (fs : LedgerFs) (roster : RosterState)
    (poison : PoisonCounts) (msgs : List (Msg × Bool)) : TickOutcome :=
  if msgs.isEmpty then .noMessages
  else
    match ensure_processed_ledger_exists fs with
    | (false, _) => .skippedMissingLedger
    | (true, fs1) =>
      match load_processed_ledger fs1 with
      | none => .skippedMissingLedger
      | some ledger =>
        let (st, rs) := processTick env
          { ledger := ledger, stats := [], roster := roster, poison := poison }
          msgs
        .ran st rs

/-! ## Invariant machinery over the per-message step -/

/-- Number of `ASSIGNED`-event stats rows recorded for a durable key. -/
def countAssigned (stats : List StatsRow) (key : String) : Nat :=
  (stats.filter (fun r => r.event_type = "ASSIGNED" && r.msg_key = key)).length

lemma lookupEntry_insertEntry (l : Ledger) (k : String) (e : LedgerEntry)
    (q : String) :
    lookupEntry (insertEntry l k e) q =
      if k = q then some e else lookupEntry l q := by
  induction l with
  | nil => by_cases h : k = q <;> simp [insertEntry, lookupEntry, h]
  | cons kv rest ih =>
    obtain ⟨k1, e1⟩ := kv
    by_cases hk : k1 = k
    · subst hk
      by_cases hq : k1 = q <;> simp [insertEntry, lookupEntry, hq]
    · by_cases hq : k1 = q
      · subst hq
        have hkq : ¬ k = k1 := fun h => hk h.symm
        simp [insertEntry, lookupEntry, hk, hkq, lookupEntry]
      · simp [insertEntry, lookupEntry, hk, hq, ih]


/-! ## Stage invariant lemmas -/

@[simp] lemma addStats_ledger (st : TickState) (row : StatsRow) :
    (addStats st row).ledger = st.ledger := rfl
@[simp] lemma addStats_stats (st : TickState) (row : StatsRow) :
    (addStats st row).stats = st.stats ++ [row] := rfl
@[simp] lemma addStats_poison (st : TickState) (row : StatsRow) :
    (addStats st row).poison = st.poison := rfl
@[simp] lemma putLedger_ledger (st : TickState) (k : String) (e : LedgerEntry) :
    (putLedger st k e).ledger = insertEntry st.ledger k e := rfl
@[simp] lemma putLedger_stats (st : TickState) (k : String) (e : LedgerEntry) :
    (putLedger st k e).stats = st.stats := rfl
@[simp] lemma putLedger_poison (st : TickState) (k : String) (e : LedgerEntry) :
    (putLedger st k e).poison = st.poison := rfl

@[simp] lemma countAssigned_append (s : List StatsRow) (row : StatsRow)
    (k : String) :
    countAssigned (s ++ [row]) k =
      countAssigned s k +
        (if row.event_type = "ASSIGNED" ∧ row.msg_key = k then 1 else 0) := by
  simp [countAssigned, List.filter_append]
  split_ifs with h
  · simp [List.filter_cons, h]
  · rcases not_and_or.mp h with h1 | h1 <;> simp [List.filter_cons, h1] <;>
      split_ifs <;> simp_all

lemma lookupKeeps_insert (l : Ledger) (k0 : String) (e : LedgerEntry) :
    ∀ k, lookupEntry l k ≠ none → lookupEntry (insertEntry l k0 e) k ≠ none := by
  intro k h
  rw [lookupEntry_insertEntry]
  split_ifs <;> simp_all

/-- State evolution that keeps ledger keys, appends no `ASSIGNED` stats
row, and leaves poison counters alone. -/
def preserves (st st' : TickState) : Prop :=
  (∀ k, lookupEntry st.ledger k ≠ none → lookupEntry st'.ledger k ≠ none) ∧
  (∀ k, countAssigned st'.stats k = countAssigned st.stats k) ∧
  st'.poison = st.poison

lemma preserves_refl (st : TickState) : preserves st st :=
  ⟨fun _ h => h, fun _ => rfl, rfl⟩

lemma preserves_trans {st1 st2 st3 : TickState}
    (h1 : preserves st1 st2) (h2 : preserves st2 st3) : preserves st1 st3 :=
  ⟨fun k h => h2.1 k (h1.1 k h), fun k => (h2.2.1 k).trans (h1.2.1 k),
   h2.2.2.trans h1.2.2⟩

lemma preserves_put (st : TickState) (key : String) (e : LedgerEntry) :
    preserves st (putLedger st key e) := by
  refine ⟨fun k h => lookupKeeps_insert _ _ _ k h, fun k => ?_, rfl⟩
  simp

lemma ne_ASSIGNED_empty : ("" : String) ≠ "ASSIGNED" := by decide

lemma ne_ASSIGNED_completed : ("COMPLETED" : String) ≠ "ASSIGNED" := by decide

lemma ne_ASSIGNED_jfa : ("JIRA_FOLLOWUP_ASSIGNED" : String) ≠ "ASSIGNED" := by
  decide

lemma preserves_add (st : TickState) (row : StatsRow)
    (hrow : row.event_type ≠ "ASSIGNED") : preserves st (addStats st row) := by
  refine ⟨fun k h => h, fun k => ?_, rfl⟩
  simp [hrow]

/-- The invariants every terminal branch of the loop body maintains. -/
def stageOk (c : MsgCtx) (st st' : TickState) : Prop :=
  (∀ k, lookupEntry st.ledger k ≠ none → lookupEntry st'.ledger k ≠ none) ∧
  (∀ k, k ≠ c.message_key →
    countAssigned st'.stats k = countAssigned st.stats k) ∧
  countAssigned st'.stats c.message_key ≤
    countAssigned st.stats c.message_key + 1 ∧
  (countAssigned st.stats c.message_key <
      countAssigned st'.stats c.message_key →
    lookupEntry st'.ledger c.message_key ≠ none) ∧
  st'.poison = st.poison

lemma stageOk_of_preserves {c : MsgCtx} {st st' : TickState}
    (h : preserves st st') : stageOk c st st' :=
  ⟨h.1, fun k _ => h.2.1 k, by rw [h.2.1]; omega, by rw [h.2.1]; omega, h.2.2⟩

lemma stageOk_refl (c : MsgCtx) (st : TickState) : stageOk c st st :=
  stageOk_of_preserves (preserves_refl st)

lemma stageOk_assign_last {c : MsgCtx} {st st3 : TickState} (row : StatsRow)
    (h : preserves st st3) (hkey : row.msg_key = c.message_key)
    (hled : lookupEntry st3.ledger c.message_key ≠ none) :
    stageOk c st (addStats st3 row) := by
  refine ⟨h.1, fun k hk => ?_, ?_, fun _ => hled, h.2.2⟩
  · rw [addStats_stats, countAssigned_append, h.2.1 k]
    have hno : ¬(row.event_type = "ASSIGNED" ∧ row.msg_key = k) := by
      rintro ⟨-, h2⟩
      exact hk (h2.symm.trans hkey)
    simp [hno]
  · rw [addStats_stats, countAssigned_append, h.2.1 c.message_key]
    split_ifs <;> omega

def stagePreservesOpt (st : TickState) :
    Option (TickState × MsgResult) → Prop
  | some (st', _) => preserves st st'
  | none => True

/-- A stage that never changes the state. -/
def stageFixes (st : TickState) : Option (TickState × MsgResult) → Prop
  | some (st', _) => st' = st
  | none => True

lemma hibArchive_preserves (env : Env) (st : TickState) (c : MsgCtx)
    (o : MsgOutcome) : preserves st (hibArchive env st c o).1 := by
  unfold hibArchive
  simp only []
  split_ifs <;>
    exact preserves_trans (preserves_put st _ _)
      (preserves_add _ _ (fun hx => ne_ASSIGNED_empty hx))

lemma quarantineStage_fix (env : Env) (st : TickState) (c : MsgCtx) :
    stageFixes st (quarantineStage env st c) := by
  unfold quarantineStage
  split_ifs <;> simp [stageFixes]

lemma ledgerSkipStage_fix (st : TickState) (c : MsgCtx) :
    stageFixes st (ledgerSkipStage st c) := by
  unfold ledgerSkipStage
  split_ifs <;> simp [stageFixes]

lemma staffGuardStage_fix (env : Env) (st : TickState) (c : MsgCtx) :
    stageFixes st (staffGuardStage env st c) := by
  unfold staffGuardStage
  simp only []
  split_ifs <;> simp [stageFixes]

lemma hibStage_preserves (env : Env) (st : TickState) (c : MsgCtx) :
    stagePreservesOpt st (hibStage env st c) := by
  unfold hibStage
  split_ifs <;> simp only [stagePreservesOpt] <;> try trivial
  exact hibArchive_preserves env st c .hibArchived

lemma internalNonStaffStage_preserves (env : Env) (st : TickState)
    (c : MsgCtx) :
    stagePreservesOpt st (internalNonStaffStage env st c) := by
  unfold internalNonStaffStage
  simp only []
  split_ifs <;> simp only [stagePreservesOpt] <;> try trivial
  all_goals first
    | exact preserves_refl st
    | exact preserves_trans (preserves_put st _ _)
        (preserves_add _ _ (fun hx => ne_ASSIGNED_empty hx))

lemma hibNoiseStage_preserves (env : Env) (st : TickState) (c : MsgCtx) :
    stagePreservesOpt st (hibNoiseStage env st c) := by
  unfold hibNoiseStage
  split_ifs <;> simp only [stagePreservesOpt] <;> try trivial
  all_goals first
    | exact preserves_refl st
    | exact hibArchive_preserves env st c .hibNoiseArchived

lemma preserves_roster (st : TickState) (r : RosterState) :
    preserves st { st with roster := r } :=
  ⟨fun _ h => h, fun _ => rfl, rfl⟩

lemma jiraStage_preserves (env : Env) (st : TickState) (c : MsgCtx) :
    stagePreservesOpt st (jiraStage env st c) := by
  unfold jiraStage
  rcases hgs : get_next_staff env.staff_list st.roster with ⟨a?, r1⟩
  simp only [hgs]
  split_ifs <;> try trivial
  all_goals try cases a?
  all_goals try simp only [stagePreservesOpt]
  all_goals try split_ifs
  all_goals try simp only [stagePreservesOpt]
  all_goals first
    | trivial
    | exact preserves_refl st
    | exact preserves_roster st r1
    | exact preserves_add _ _ (fun hx => ne_ASSIGNED_empty hx)
    | exact preserves_trans (preserves_roster st r1)
        (preserves_trans (preserves_put _ _ _) (preserves_put _ _ _))
    | exact preserves_trans (preserves_roster st r1)
        (preserves_trans
          (preserves_trans (preserves_put _ _ _) (preserves_put _ _ _))
          (preserves_add _ _ (fun hx => ne_ASSIGNED_jfa hx)))

lemma completionStage_preserves (env : Env) (st : TickState) (c : MsgCtx) :
    stagePreservesOpt st (completionStage env st c) := by
  unfold completionStage
  simp only []
  split_ifs <;> try trivial
  all_goals try split
  all_goals try simp only [stagePreservesOpt]
  all_goals try split_ifs
  all_goals try simp only [stagePreservesOpt]
  all_goals first
    | trivial
    | exact preserves_refl st
    | exact preserves_trans (preserves_put _ _ _)
        (preserves_add _ _ (fun hx => ne_ASSIGNED_empty hx))
    | exact preserves_trans
        (preserves_trans (preserves_put _ _ _)
          (preserves_add _ _ (fun hx => ne_ASSIGNED_empty hx)))
        (preserves_add _ _ (fun hx => ne_ASSIGNED_empty hx))
    | exact preserves_trans
        (preserves_trans (preserves_put _ _ _)
          (preserves_add _ _ (fun hx => ne_ASSIGNED_completed hx)))
        (preserves_add _ _ (fun hx => ne_ASSIGNED_empty hx))
    | exact preserves_trans (preserves_put _ _ _)
        (preserves_add _ _ (fun hx => ne_ASSIGNED_completed hx))
    | exact preserves_add _ _ (fun hx => ne_ASSIGNED_completed hx)
    | exact preserves_trans
        (preserves_add _ _ (fun hx => ne_ASSIGNED_completed hx))
        (preserves_add _ _ (fun hx => ne_ASSIGNED_empty hx))

lemma smartFilterStage_preserves (env : Env) (st : TickState) (c : MsgCtx) :
    stagePreservesOpt st (smartFilterStage env st c) := by
  unfold smartFilterStage
  split_ifs <;> try trivial
  all_goals try simp only [stagePreservesOpt]
  all_goals first
    | trivial
    | exact preserves_trans
        (preserves_trans
          (preserves_add _ _ (fun hx => ne_ASSIGNED_completed hx))
          (preserves_put _ _ _))
        (preserves_add _ _ (fun hx => ne_ASSIGNED_empty hx))
    | exact preserves_trans
        (preserves_add _ _ (fun hx => ne_ASSIGNED_completed hx))
        (preserves_put _ _ _)

lemma jiraAutomationStage_preserves (env : Env) (st : TickState)
    (c : MsgCtx) :
    stagePreservesOpt st (jiraAutomationStage env st c) := by
  unfold jiraAutomationStage
  split_ifs <;> try trivial
  all_goals try simp only [stagePreservesOpt]
  all_goals first
    | trivial
    | exact preserves_trans
        (preserves_trans
          (preserves_add _ _ (fun hx => ne_ASSIGNED_empty hx))
          (preserves_put _ _ _))
        (preserves_add _ _ (fun hx => ne_ASSIGNED_empty hx))
    | exact preserves_trans
        (preserves_add _ _ (fun hx => ne_ASSIGNED_empty hx))
        (preserves_put _ _ _)

lemma unknownHoldStage_preserves (env : Env) (st : TickState) (c : MsgCtx) :
    stagePreservesOpt st (unknownHoldStage env st c) := by
  unfold unknownHoldStage
  split_ifs <;> try trivial
  all_goals try simp only [stagePreservesOpt]
  all_goals first
    | trivial
    | exact preserves_refl st
    | exact preserves_put _ _ _
    | exact preserves_trans (preserves_put _ _ _)
        (preserves_add _ _ (fun hx => ne_ASSIGNED_empty hx))





lemma lookup_insert_same (l : Ledger) (k : String) (e : LedgerEntry) :
    lookupEntry (insertEntry l k e) k ≠ none := by
  rw [lookupEntry_insertEntry]
  simp




lemma stageOk_add_after {c : MsgCtx} {st st' : TickState} (row : StatsRow)
    (h : stageOk c st st') (hrow : row.event_type ≠ "ASSIGNED") :
    stageOk c st (addStats st' row) := by
  obtain ⟨h1, h2, h3, h4, h5⟩ := h
  refine ⟨h1, fun k hk => ?_, ?_, fun hlt => h4 ?_, h5⟩
  · rw [addStats_stats, countAssigned_append]
    simp [hrow, h2 k hk]
  · rw [addStats_stats, countAssigned_append]
    simp [hrow, h3]
  · rw [addStats_stats, countAssigned_append] at hlt
    simp [hrow] at hlt
    exact hlt

lemma samiBody_preserves (env : Env) (st : TickState) (c : MsgCtx)
    (action_taken : String) :
    preserves st (samiBody env st c action_taken).1 := by
  unfold samiBody
  simp only []
  split_ifs
  all_goals first
    | exact preserves_trans
        (preserves_trans
          (preserves_add _ _ (fun hx => ne_ASSIGNED_completed hx))
          (preserves_add _ _ (fun hx => ne_ASSIGNED_empty hx)))
        (preserves_put _ _ _)
    | exact preserves_trans
        (preserves_add _ _ (fun hx => ne_ASSIGNED_completed hx))
        (preserves_put _ _ _)

lemma systemNotificationBody_preserves (env : Env) (st1 : TickState)
    (c : MsgCtx) (assignee risk_level action_taken : String) :
    preserves st1
      (systemNotificationBody env st1 c assignee risk_level action_taken).1 := by
  unfold systemNotificationBody
  simp only []
  split_ifs
  all_goals first
    | exact preserves_trans
        (preserves_add _ _ (fun hx => ne_ASSIGNED_empty hx))
        (preserves_add _ _ (fun hx => ne_ASSIGNED_empty hx))
    | exact preserves_add _ _ (fun hx => ne_ASSIGNED_empty hx)

lemma forwardBody_ok (env : Env) (st0 st1 : TickState) (c : MsgCtx)
    (assignee risk_level action_taken : String)
    (hold_recipients : List String)
    (hpre : preserves st0 st1)
    (hled : lookupEntry st1.ledger c.message_key ≠ none) :
    stageOk c st0
      (forwardBody env st1 c assignee risk_level action_taken
        hold_recipients).1 := by
  unfold forwardBody
  simp only []
  split_ifs
  all_goals try apply stageOk_add_after _ _ (fun hx => ne_ASSIGNED_empty hx)
  all_goals try first
    | exact stageOk_of_preserves hpre
    | exact stageOk_of_preserves
        (preserves_trans hpre
          (preserves_add _ _ (fun hx => ne_ASSIGNED_empty hx)))
    | exact stageOk_of_preserves (preserves_trans hpre (preserves_put _ _ _))
    | exact stageOk_of_preserves
        (preserves_trans hpre
          (preserves_trans
            (preserves_add _ _ (fun hx => ne_ASSIGNED_empty hx))
            (preserves_put _ _ _)))
  all_goals refine stageOk_assign_last _ ?_ ?_ ?_
  all_goals try rfl
  all_goals first
    | exact hpre
    | exact preserves_trans hpre
        (preserves_add _ _ (fun hx => ne_ASSIGNED_empty hx))
    | exact preserves_trans hpre (preserves_put _ _ _)
    | exact preserves_trans hpre
        (preserves_trans
          (preserves_add _ _ (fun hx => ne_ASSIGNED_empty hx))
          (preserves_put _ _ _))
    | exact hled
    | exact lookup_insert_same _ _ _
    | exact stageOk_assign_last _
        (preserves_trans hpre
          (preserves_trans
            (preserves_add _ _ (fun hx => ne_ASSIGNED_empty hx))
            (preserves_put _ _ _))) (by rfl)
        (lookup_insert_same _ _ _)




lemma routingBody_ok (env : Env) (st : TickState) (c : MsgCtx)
    (risk_level action_taken0 : String) (assignee? : Option String)
    (roster1 : RosterState) (is_completion : Bool)
    (hold_recipients : List String) :
    stageOk c st (routingBody env st c risk_level action_taken0 assignee?
      roster1 is_completion hold_recipients).1 := by
  unfold routingBody
  simp only []
  split_ifs <;> try cases assignee?
  all_goals try split_ifs
  all_goals first
    | exact stageOk_of_preserves (preserves_roster st roster1)
    | exact stageOk_of_preserves
        (preserves_trans (preserves_roster st roster1)
          (samiBody_preserves env _ c _))
    | exact stageOk_of_preserves
        (preserves_trans (preserves_roster st roster1) (preserves_put _ _ _))
    | exact stageOk_of_preserves
        (preserves_trans (preserves_roster st roster1)
          (preserves_trans (preserves_put _ _ _)
            (systemNotificationBody_preserves env _ c _ _ _)))
    | exact forwardBody_ok env _ _ c _ _ _ _
        (preserves_trans (preserves_roster st roster1) (preserves_put _ _ _))
        (lookup_insert_same _ _ _)

lemma routingStage_ok (env : Env) (st : TickState) (c : MsgCtx) :
    stageOk c st (routingStage env st c).1 := by
  unfold routingStage
  rcases hrd : routeDecision env st c
    (hibNoiseMatch env c.sender_email c.subject) with ⟨act, a?, r1, isc, hr⟩
  simp only [hrd]
  exact routingBody_ok env st c _ act a? r1 isc hr

end Distributor
namespace Distributor
set_option maxHeartbeats 1000000 in
lemma processMessage_ok (env : Env) (st : TickState) (m : Msg) :
    stageOk (mkCtx env m) st (processMessage env st m).1 := by
  unfold processMessage
  simp only []
  repeat' split
  all_goals first
    | exact routingStage_ok env st (mkCtx env m)
    | (rename_i r heq
       obtain ⟨st1, r1⟩ := r
       first
        | (have hx := quarantineStage_fix env st (mkCtx env m)
           rw [heq] at hx
           simp only [stageFixes] at hx
           rw [hx]
           exact stageOk_refl _ _)
        | (have hx := ledgerSkipStage_fix st (mkCtx env m)
           rw [heq] at hx
           simp only [stageFixes] at hx
           rw [hx]
           exact stageOk_refl _ _)
        | (have hx := staffGuardStage_fix env st (mkCtx env m)
           rw [heq] at hx
           simp only [stageFixes] at hx
           rw [hx]
           exact stageOk_refl _ _)
        | (have hx := hibStage_preserves env st (mkCtx env m)
           rw [heq] at hx
           simp only [stagePreservesOpt] at hx
           exact stageOk_of_preserves hx)
        | (have hx := internalNonStaffStage_preserves env st (mkCtx env m)
           rw [heq] at hx
           simp only [stagePreservesOpt] at hx
           exact stageOk_of_preserves hx)
        | (have hx := hibNoiseStage_preserves env st (mkCtx env m)
           rw [heq] at hx
           simp only [stagePreservesOpt] at hx
           exact stageOk_of_preserves hx)
        | (have hx := jiraStage_preserves env st (mkCtx env m)
           rw [heq] at hx
           simp only [stagePreservesOpt] at hx
           exact stageOk_of_preserves hx)
        | (have hx := completionStage_preserves env st (mkCtx env m)
           rw [heq] at hx
           simp only [stagePreservesOpt] at hx
           exact stageOk_of_preserves hx)
        | (have hx := smartFilterStage_preserves env st (mkCtx env m)
           rw [heq] at hx
           simp only [stagePreservesOpt] at hx
           exact stageOk_of_preserves hx)
        | (have hx := jiraAutomationStage_preserves env st (mkCtx env m)
           rw [heq] at hx
           simp only [stagePreservesOpt] at hx
           exact stageOk_of_preserves hx)
        | (have hx := unknownHoldStage_preserves env st (mkCtx env m)
           rw [heq] at hx
           simp only [stagePreservesOpt] at hx
           exact stageOk_of_preserves hx))
end Distributor

namespace Distributor

lemma processMessage_fix_of_mem (env : Env) (st : TickState) (m : Msg)
    (h : lookupEntry st.ledger (mkCtx env m).message_key ≠ none) :
    (processMessage env st m).1 = st := by
  unfold processMessage
  simp only []
  have hq := quarantineStage_fix env st (mkCtx env m)
  cases hq1 : quarantineStage env st (mkCtx env m) with
  | some r =>
    obtain ⟨st1, r1⟩ := r
    rw [hq1] at hq
    simp only [stageFixes] at hq
    exact hq
  | none =>
    have hs : (lookupEntry st.ledger (mkCtx env m).message_key).isSome := by
      cases hl : lookupEntry st.ledger (mkCtx env m).message_key with
      | none => exact absurd hl h
      | some e => rfl
    simp only [ledgerSkipStage, hs, if_pos]

lemma lookupCount_insertCount (l : PoisonCounts) (k : String) (n : Nat)
    (q : String) :
    lookupCount (insertCount l k n) q =
      if k = q then n else lookupCount l q := by
  induction l with
  | nil => by_cases h : k = q <;> simp [insertCount, lookupCount, h]
  | cons kv rest ih =>
    obtain ⟨k1, n1⟩ := kv
    by_cases hk : k1 = k
    · subst hk
      by_cases hq : k1 = q <;> simp [insertCount, lookupCount, hq]
    · by_cases hq : k1 = q
      · subst hq
        have hkq : ¬ k = k1 := fun h => hk h.symm
        simp [insertCount, lookupCount, hk, hkq]
      · simp [insertCount, lookupCount, hk, hq, ih]

/-- The tick-level at-most-once discipline: ledger keys are kept, and a
key's `ASSIGNED` stats count either stays put or rises by exactly one, the
latter only when the key was absent from the ledger before and present
after. -/
def assignOnce (st st' : TickState) : Prop :=
  (∀ k, lookupEntry st.ledger k ≠ none → lookupEntry st'.ledger k ≠ none) ∧
  (∀ k, countAssigned st'.stats k ≤ countAssigned st.stats k ∨
    (countAssigned st'.stats k ≤ countAssigned st.stats k + 1 ∧
     lookupEntry st.ledger k = none ∧ lookupEntry st'.ledger k ≠ none))

lemma assignOnce_refl (st : TickState) : assignOnce st st :=
  ⟨fun _ h => h, fun _ => Or.inl le_rfl⟩

lemma assignOnce_trans {st1 st2 st3 : TickState}
    (h1 : assignOnce st1 st2) (h2 : assignOnce st2 st3) :
    assignOnce st1 st3 := by
  refine ⟨fun k h => h2.1 k (h1.1 k h), fun k => ?_⟩
  have hcontra : lookupEntry st2.ledger k = none →
      lookupEntry st1.ledger k = none := by
    intro hn
    cases hl : lookupEntry st1.ledger k with
    | none => rfl
    | some e =>
      exact absurd (h1.1 k (by rw [hl]; exact fun hx => Option.noConfusion hx))
        (by rw [hn]; exact fun hx => hx rfl)
  rcases h1.2 k with he1 | ⟨hb1, hn1, hp1⟩
  · rcases h2.2 k with he2 | ⟨hb2, hn2, hp2⟩
    · exact Or.inl (he2.trans he1)
    · exact Or.inr ⟨by omega, hcontra hn2, hp2⟩
  · rcases h2.2 k with he2 | ⟨hb2, hn2, hp2⟩
    · exact Or.inr ⟨by omega, hn1, h2.1 k hp1⟩
    · exact absurd hn2 hp1

/-- One step of the per-message loop, `raises` modelling an exception in
the try body. -/
def msgStep (env : Env) (st : TickState) (mr : Msg × Bool) : TickState :=
  if mr.2 then (handle_processing_exception env st mr.1).1
  else (processMessage env st mr.1).1

lemma handle_processing_exception_counts (env : Env) (st : TickState)
    (m : Msg) (k : String) :
    countAssigned (handle_processing_exception env st m).1.stats k =
      countAssigned st.stats k := by
  unfold handle_processing_exception
  simp only []
  split_ifs <;>
    simp +decide [countAssigned, List.filter_append, List.filter_cons,
      wrongMailboxRow]

lemma handle_processing_exception_ledger (env : Env) (st : TickState)
    (m : Msg) :
    (handle_processing_exception env st m).1.ledger = st.ledger := by
  unfold handle_processing_exception
  simp only []
  split_ifs <;> rfl

lemma handle_processing_exception_assignOnce (env : Env) (st : TickState)
    (m : Msg) :
    assignOnce st (handle_processing_exception env st m).1 := by
  refine ⟨fun k h => ?_,
    fun k => Or.inl (le_of_eq (handle_processing_exception_counts env st m k))⟩
  rw [handle_processing_exception_ledger]
  exact h

lemma processMessage_assignOnce (env : Env) (st : TickState) (m : Msg) :
    assignOnce st (processMessage env st m).1 := by
  by_cases hmem : lookupEntry st.ledger (mkCtx env m).message_key = none
  · have hok := processMessage_ok env st m
    refine ⟨hok.1, fun k => ?_⟩
    by_cases hk : k = (mkCtx env m).message_key
    · subst hk
      have h3 := hok.2.2.1
      have h4 := hok.2.2.2.1
      by_cases hlt : countAssigned st.stats (mkCtx env m).message_key <
          countAssigned (processMessage env st m).1.stats (mkCtx env m).message_key
      · exact Or.inr ⟨by omega, hmem, h4 hlt⟩
      · exact Or.inl (by omega)
    · exact Or.inl (le_of_eq (hok.2.1 k hk))
  · rw [processMessage_fix_of_mem env st m hmem]
    exact assignOnce_refl st

lemma processTick_assignOnce (env : Env) :
    ∀ (msgs : List (Msg × Bool)) (st : TickState),
      assignOnce st (processTick env st msgs).1
  | [], st => assignOnce_refl st
  | (m, raises) :: rest, st => by
    unfold processTick
    simp only []
    by_cases hr : raises
    · subst hr
      simp only [if_pos]
      exact assignOnce_trans (handle_processing_exception_assignOnce env st m)
        (processTick_assignOnce env rest _)
    · simp only [if_neg hr]
      exact assignOnce_trans (processMessage_assignOnce env st m)
        (processTick_assignOnce env rest _)

end Distributor

namespace Distributor

lemma handle_poison (env : Env) (st : TickState) (m : Msg) (k : String) :
    lookupCount (handle_processing_exception env st m).1.poison k =
      if (mkCtx env m).message_key = k then lookupCount st.poison k + 1
      else lookupCount st.poison k := by
  unfold handle_processing_exception
  simp only []
  split_ifs <;> simp_all [lookupCount_insertCount]

lemma processMessage_poison (env : Env) (st : TickState) (m : Msg) :
    (processMessage env st m).1.poison = st.poison :=
  (processMessage_ok env st m).2.2.2.2

lemma processTick_poison_mono (env : Env) :
    ∀ (msgs : List (Msg × Bool)) (st : TickState) (k : String),
      lookupCount st.poison k ≤ lookupCount (processTick env st msgs).1.poison k
  | [], _, _ => le_rfl
  | (m, raises) :: rest, st, k => by
    unfold processTick
    simp only []
    by_cases hr : raises
    · subst hr
      simp only [if_pos]
      refine le_trans ?_ (processTick_poison_mono env rest _ k)
      rw [handle_poison]
      split_ifs <;> omega
    · simp only [if_neg hr]
      refine le_trans ?_ (processTick_poison_mono env rest _ k)
      rw [processMessage_poison]

lemma processTick_length (env : Env) :
    ∀ (msgs : List (Msg × Bool)) (st : TickState),
      (processTick env st msgs).2.length = msgs.length
  | [], _ => rfl
  | (m, raises) :: rest, st => by
    unfold processTick
    simp only []
    by_cases hr : raises
    · subst hr
      simp only [if_pos, List.length_cons]
      rw [processTick_length env rest]
    · simp only [if_neg hr, List.length_cons]
      rw [processTick_length env rest]

lemma handle_threshold (env : Env) (st : TickState) (m : Msg)
    (hq : env.quarantinePresent = true)
    (hs : (check_msg_mailbox_store m env.target_store).1 = true)
    (h2 : lookupCount st.poison (mkCtx env m).message_key = 2) :
    (handle_processing_exception env st m).2 =
      ⟨.processingError true, [.moveQuarantine]⟩ := by
  unfold handle_processing_exception
  simp only [addStats_poison]
  rw [h2]
  have hs' : (check_msg_mailbox_store (mkCtx env m).m env.target_store).1 =
      true := hs
  simp [hq, hs']

end Distributor

namespace Distributor

/-- C1: a durable identity already present as a ledger key gains no
further `ASSIGNED` stats row and stays in the ledger across a whole tick,
and any identity that starts a tick with no `ASSIGNED` row ends it with at
most one: the at-most-one-new-entry-per-identity invariant is preserved by
every tick of the per-message loop. -/
theorem tick_at_most_one_assigned (env : Env) (st : TickState)
    (msgs : List (Msg × Bool)) (k : String) :
    (lookupEntry st.ledger k ≠ none →
      countAssigned (processTick env st msgs).1.stats k ≤
          countAssigned st.stats k ∧
      lookupEntry (processTick env st msgs).1.ledger k ≠ none) ∧
    (countAssigned st.stats k = 0 →
      countAssigned (processTick env st msgs).1.stats k ≤ 1) := by
  have h := processTick_assignOnce env msgs st
  constructor
  · intro hmem
    refine ⟨?_, h.1 k hmem⟩
    rcases h.2 k with hle | ⟨_, hnone, _⟩
    · exact hle
    · exact absurd hnone hmem
  · intro h0
    rcases h.2 k with hle | ⟨hb, _, _⟩
    · omega
    · omega

def c1St : TickState := { ledger := [("fallback:unknown||", {})] }

def c1Msgs : List (Msg × Bool) := [({}, false), ({}, false)]

theorem tick_at_most_one_assigned_witness :
    (lookupEntry c1St.ledger "fallback:unknown||" ≠ none ∧
     countAssigned (processTick {} c1St c1Msgs).1.stats "fallback:unknown||" ≤
        countAssigned c1St.stats "fallback:unknown||" ∧
     lookupEntry (processTick {} c1St c1Msgs).1.ledger "fallback:unknown||" ≠
        none) ∧
    (countAssigned c1St.stats "fallback:unknown||" = 0 ∧
     countAssigned (processTick {} c1St c1Msgs).1.stats "fallback:unknown||" ≤
        1) :=
  ⟨⟨by decide,
    (tick_at_most_one_assigned {} c1St c1Msgs "fallback:unknown||").1
      (by decide)⟩,
   ⟨by decide,
    (tick_at_most_one_assigned {} c1St c1Msgs "fallback:unknown||").2
      (by decide)⟩⟩

/-- C6: the poison counter of a message identity rises by exactly one on
each unhandled processing exception for it (other identities untouched,
the try-body never touches the counters), the failure that lifts the
count to the threshold 3 moves the message to quarantine while the loop
continues (one result per message), and over a whole tick no counter ever
decreases. -/
theorem poison_counter_discipline (env : Env) (st : TickState) (m : Msg)
    (msgs : List (Msg × Bool)) (k : String) :
    (lookupCount (handle_processing_exception env st m).1.poison
        (mkCtx env m).message_key =
      lookupCount st.poison (mkCtx env m).message_key + 1) ∧
    (k ≠ (mkCtx env m).message_key →
      lookupCount (handle_processing_exception env st m).1.poison k =
        lookupCount st.poison k) ∧
    ((processMessage env st m).1.poison = st.poison) ∧
    (env.quarantinePresent = true →
      (check_msg_mailbox_store m env.target_store).1 = true →
      lookupCount st.poison (mkCtx env m).message_key = 2 →
      (handle_processing_exception env st m).2 =
        ⟨.processingError true, [.moveQuarantine]⟩) ∧
    (lookupCount st.poison k ≤
      lookupCount (processTick env st msgs).1.poison k) ∧
    ((processTick env st msgs).2.length = msgs.length) := by
  refine ⟨?_, fun hk => ?_, processMessage_poison env st m,
    handle_threshold env st m, processTick_poison_mono env msgs st k,
    processTick_length env msgs st⟩
  · rw [handle_poison]
    simp
  · rw [handle_poison, if_neg (fun h => hk h.symm)]

def c6St : TickState := { poison := [("fallback:unknown||", 2)] }

def c6Msgs : List (Msg × Bool) := [({}, true)]

theorem poison_counter_discipline_witness :
    (lookupCount (handle_processing_exception {} c6St {}).1.poison
        (mkCtx {} {}).message_key =
      lookupCount c6St.poison (mkCtx {} {}).message_key + 1) ∧
    (lookupCount (handle_processing_exception {} c6St {}).1.poison "other" =
      lookupCount c6St.poison "other") ∧
    ((processMessage {} c6St {}).1.poison = c6St.poison) ∧
    ((handle_processing_exception {} c6St {}).2 =
      ⟨.processingError true, [.moveQuarantine]⟩) ∧
    (lookupCount c6St.poison "other" ≤
      lookupCount (processTick {} c6St c6Msgs).1.poison "other") ∧
    ((processTick {} c6St c6Msgs).2.length = c6Msgs.length) := by
  have h := poison_counter_discipline {} c6St {} c6Msgs "other"
  exact ⟨h.1, h.2.1 (by decide), h.2.2.1,
    h.2.2.2.1 rfl (by decide) (by decide), h.2.2.2.2.1, h.2.2.2.2.2⟩

end Distributor

namespace Distributor

def c7Pol : Policy := { quarantine_domains := ["spam.example"] }

def c7Env : Env := { policy := c7Pol }

def c7Msg : Msg := { senderEmail := "bad@spam.example", entryId := some "Q1" }

def c7St : TickState := { ledger := [("Q1", {})] }

/-- C7 counterexample: a message whose durable identity is already a
ledger key but whose sender classifies to the quarantine bucket is NOT
skipped — the quarantine check runs before the identity lookup and the
message is still moved to the quarantine folder. -/
theorem quarantine_outruns_identity_cex :
    lookupEntry c7St.ledger (mkCtx c7Env c7Msg).message_key ≠ none ∧
    (mkCtx c7Env c7Msg).domain_bucket = "quarantine" ∧
    (processMessage c7Env c7St c7Msg).2.actions = [.moveQuarantine] := by
  refine ⟨by decide, by decide, by decide⟩

/-- C7 (amended): the quarantine check precedes identity resolution — a
message classifying to the quarantine bucket is moved to quarantine (with
the tick state untouched) regardless of whether its durable identity is
already a ledger key; only messages that get past the quarantine check are
skipped by the ledger lookup. -/
theorem quarantine_check_precedes_identity (env : Env) (st : TickState)
    (m : Msg) (hb : (mkCtx env m).domain_bucket = "quarantine")
    (hq : env.quarantinePresent = true)
    (hs : (check_msg_mailbox_store m env.target_store).1 = true) :
    processMessage env st m = (st, ⟨.quarantined, [.moveQuarantine]⟩) := by
  unfold processMessage
  simp only []
  have hone : quarantineStage env st (mkCtx env m) =
      some (st, ⟨.quarantined, [.moveQuarantine]⟩) := by
    unfold quarantineStage
    have hs' : (check_msg_mailbox_store (mkCtx env m).m env.target_store).1 =
        true := hs
    simp [hb, hq, hs']
  rw [hone]

theorem quarantine_check_precedes_identity_witness :
    (mkCtx c7Env c7Msg).domain_bucket = "quarantine" ∧
    c7Env.quarantinePresent = true ∧
    (check_msg_mailbox_store c7Msg c7Env.target_store).1 = true ∧
    processMessage c7Env c7St c7Msg =
      (c7St, ⟨.quarantined, [.moveQuarantine]⟩) :=
  ⟨by decide, rfl, by decide,
   quarantine_check_precedes_identity c7Env c7St c7Msg (by decide) rfl
     (by decide)⟩

def TickOutcome.isRan : TickOutcome → Bool
  | .ran _ _ => true
  | _ => false

def c8Msgs : List (Msg × Bool) := [({}, false)]

/-- C8 counterexample: with the processed-ledger file absent on disk the
tick is NOT skipped — `ensure_processed_ledger_exists` bootstraps an empty
ledger and the per-message loop runs. -/
theorem missing_ledger_tick_runs_cex :
    (LedgerFs.mk none true).file = none ∧
    (runTick {} (LedgerFs.mk none true) ⟨0, 0⟩ [] c8Msgs).isRan = true :=
  ⟨rfl, by decide⟩

/-- C8 (amended): an absent processed-ledger file is not fatal by itself —
it is bootstrapped to an empty ledger and the tick runs over every
message; the tick is skipped only when that bootstrap write itself
fails. -/
theorem ledger_absent_bootstrapped (env : Env) (fs : LedgerFs)
    (roster : RosterState) (poison : PoisonCounts)
    (msgs : List (Msg × Bool)) (hne : msgs.isEmpty = false)
    (habs : fs.file = none) :
    (fs.writeOk = true →
      runTick env fs roster poison msgs =
        .ran (processTick env ⟨[], [], roster, poison⟩ msgs).1
             (processTick env ⟨[], [], roster, poison⟩ msgs).2) ∧
    (fs.writeOk = false →
      runTick env fs roster poison msgs = .skippedMissingLedger) := by
  constructor
  · intro hw
    unfold runTick ensure_processed_ledger_exists load_processed_ledger
    rw [habs, hne, hw]
    simp only [Bool.false_eq_true, if_false, if_true]
  · intro hw
    unfold runTick ensure_processed_ledger_exists
    rw [habs, hne, hw]
    simp only [Bool.false_eq_true, if_false]

theorem ledger_absent_bootstrapped_witness :
    c8Msgs.isEmpty = false ∧ (LedgerFs.mk none true).file = none ∧
    (LedgerFs.mk none true).writeOk = true ∧
    runTick {} (LedgerFs.mk none true) ⟨0, 0⟩ [] c8Msgs =
      .ran (processTick {} ⟨[], [], ⟨0, 0⟩, []⟩ c8Msgs).1
           (processTick {} ⟨[], [], ⟨0, 0⟩, []⟩ c8Msgs).2 :=
  ⟨rfl, rfl, rfl,
   (ledger_absent_bootstrapped {} (LedgerFs.mk none true) ⟨0, 0⟩ [] c8Msgs rfl
     rfl).1 rfl⟩

end Distributor

namespace Distributor

def c9Pol : Policy :=
  { transfer_domains := ["bensonradiology.com.au"],
    internal_domains := ["sa.gov.au"] }

def c9Env : Env :=
  { policy := c9Pol, staff_list := ["a@sa.gov.au", "b@sa.gov.au"],
    known_domains := ["bensonradiology.com.au", "sa.gov.au"],
    target_store := "Shared Box" }

def c9Msg : Msg :=
  { senderEmail := "requests@bensonradiology.com.au",
    subjectRaw := "Please send priors", entryId := some "E1",
    actualStore := "Personal Box" }

/-- C9 counterexample: on a mailbox-store mismatch the transport actions
are indeed skipped and `WRONG_MAILBOX` rows recorded, but the message IS
marked processed — its ledger entry persists and an `ASSIGNED` stats row
is still appended. -/
theorem wrong_mailbox_still_persists_cex :
    (check_msg_mailbox_store c9Msg c9Env.target_store).1 = false ∧
    (processMessage c9Env {} c9Msg).2.actions = [] ∧
    lookupEntry (processMessage c9Env {} c9Msg).1.ledger
      (mkCtx c9Env c9Msg).message_key ≠ none ∧
    countAssigned (processMessage c9Env {} c9Msg).1.stats
      (mkCtx c9Env c9Msg).message_key = 1 ∧
    ((processMessage c9Env {} c9Msg).1.stats.any
      (fun r => r.action = "WRONG_MAILBOX")) = true := by
  refine ⟨by decide, by decide, by decide, by decide, by decide⟩

/-- C9 (amended): when the mailbox store mismatches on the forward path,
the send and the final archive move are skipped and `WRONG_MAILBOX` rows
are recorded around the assignment row — but the ledger entry written
before the guard is untouched (the message stays marked processed) and
the assignment stats row is still appended. -/
theorem wrong_mailbox_skips_transport_only (env : Env) (st1 : TickState)
    (c : MsgCtx) (assignee risk_level action_taken : String)
    (hold : List String)
    (hs : (check_msg_mailbox_store c.m env.target_store).1 = false)
    (hcrit : risk_level ≠ "critical") :
    forwardBody env st1 c assignee risk_level action_taken hold =
      (addStats (addStats (addStats st1 (wrongMailboxRow env c risk_level))
        { subject := c.subject, assigned_to := assignee,
          sender := c.sender_email, risk_level := risk_level,
          domain_bucket := c.domain_bucket, action := action_taken,
          policy_source := env.policy_source,
          event_type :=
            if strContains (pyLower (pyStrip assignee)) "@" &&
                !nonStaffAssignees.contains (pyLower (pyStrip assignee))
              then "ASSIGNED" else "",
          msg_key := c.message_key })
        (wrongMailboxRow env c risk_level),
       ⟨.assigned assignee,
        if risk_level = "urgent" || risk_level = "critical" then
          [.watchdogAdd]
        else []⟩) := by
  unfold forwardBody
  simp only [hs, hcrit, Bool.not_false, if_true, if_false, ite_false,
    Bool.false_eq_true, List.append_nil]

theorem wrong_mailbox_skips_transport_only_witness :
    (check_msg_mailbox_store (mkCtx c9Env c9Msg).m c9Env.target_store).1 =
        false ∧
    ("normal" : String) ≠ "critical" ∧
    forwardBody c9Env {} (mkCtx c9Env c9Msg) "a@sa.gov.au" "normal"
        "IMAGE_REQUEST_EXTERNAL/domain" [] =
      (addStats (addStats (addStats ({} : TickState)
        (wrongMailboxRow c9Env (mkCtx c9Env c9Msg) "normal"))
        { subject := (mkCtx c9Env c9Msg).subject,
          assigned_to := "a@sa.gov.au",
          sender := (mkCtx c9Env c9Msg).sender_email,
          risk_level := "normal",
          domain_bucket := (mkCtx c9Env c9Msg).domain_bucket,
          action := "IMAGE_REQUEST_EXTERNAL/domain",
          policy_source := c9Env.policy_source,
          event_type :=
            if strContains (pyLower (pyStrip "a@sa.gov.au")) "@" &&
                !nonStaffAssignees.contains (pyLower (pyStrip "a@sa.gov.au"))
              then "ASSIGNED" else "",
          msg_key := (mkCtx c9Env c9Msg).message_key })
        (wrongMailboxRow c9Env (mkCtx c9Env c9Msg) "normal"),
       ⟨.assigned "a@sa.gov.au",
        if ("normal" : String) = "urgent" || ("normal" : String) = "critical"
          then [.watchdogAdd] else []⟩) :=
  ⟨by decide, by decide,
   wrong_mailbox_skips_transport_only c9Env {} (mkCtx c9Env c9Msg)
     "a@sa.gov.au" "normal" "IMAGE_REQUEST_EXTERNAL/domain" [] (by decide)
     (by decide)⟩

end Distributor
